import Mathlib

/-!
Verification development for the lending-dashboard repository.

The development shallowly embeds the transaction-dispatch and dual-signing
layer of the repository:

* `wallet_section.py` (`render_wallet_section`): the per-slot MetaMask bridge
  state, the minting of correlation sequences for pending commands
  (`int(time() * 1000)`), and the reconciliation of externally supplied
  component outcomes against the pending command's sequence.
* `pool_tools.py` (`build_lending_pool_toolkit`): the unit-conversion helpers
  `_to_token_units` / `_from_token_units`, the status helpers `_loan_status`,
  `_lender_status`, `_can_open_loan`, and the registered tool handlers
  (`deposit`, `withdraw`, `openLoan`, `repay`, `checkDefaultAndBan`, the
  owner setters, `unban`, and the read-only views).
* `mcp_tools.py` (`_render_tool_runner`): the dispatch boundary that invokes a
  handler and catches any exception it raises.

External collaborators (the deployed contract, the RPC node, key derivation,
address checksumming) are modelled as oracle fields of an environment record;
each interaction is logged in an explicit event trace so that statements like
"no broadcast attempt" and "zero network calls" are about the trace.

Python values that matter to the embedded code are modelled explicitly:
string falsiness (`""` is falsy), `or`-chains over optional strings,
`Decimal` values including NaN and infinities, and exceptions as an explicit
`PyResult` sum (a raised exception versus a returned value), with `try/except`
blocks translated to matches on that sum.
-/

namespace ArcLend

/-- Python exception classes distinguished by the `try/except` clauses of the
source: `decimal.InvalidOperation`, `ValueError`, `OverflowError`,
`TypeError`, `web3.exceptions.ContractLogicError`, a network-level failure,
and a catch-all for anything else. -/
inductive PyExc where
  | invalidOperation
  | valueError
  | overflowError
  | typeError
  | contractLogicError (msg : String)
  | networkError (msg : String)
  | otherExc (msg : String)
deriving DecidableEq

/-- Outcome of running a Python expression that may raise: either an exception
escaped, or a value was produced. -/
inductive PyResult (α : Type) where
  | raised (exc : PyExc)
  | ok (val : α)
deriving DecidableEq

/-- Python truthiness of a string: the empty string is falsy. -/
def strTruthy (s : String) : Bool := s ≠ ""

/-- Python truthiness of an optional string (`None` and `""` are falsy). -/
def optStrTruthy : Option String → Bool
  | some s => strTruthy s
  | none => false

/-- Python truthiness of an optional integer (`None` and `0` are falsy). -/
def optIntTruthy : Option ℤ → Bool
  | some n => decide (n ≠ 0)
  | none => false

/-- Python `a or b` on optional strings (`None` and `""` are falsy). -/
def pyOrStr (a b : Option String) : Option String :=
  match a with
  | some s => if strTruthy s then some s else b
  | none => b

/-- Python `a or b` on optional integers (`None` and `0` are falsy). -/
def pyOrInt (a b : Option ℤ) : Option ℤ :=
  match a with
  | some n => if n ≠ 0 then some n else b
  | none => b

/-! ## The MetaMask bridge slot (`wallet_section.py`) -/

/-- The payload dict reported by the wallet component
(`{commandSequence, address?, chainId?, txHash?, status?, error?}`). -/
structure ComponentValue where
  commandSequence : Option ℕ
  address : Option String
  chainId : Option ℤ
  txHash : Option String
  error : Option String
  status : Option String
deriving DecidableEq

/-- Payload attached to a pending command by the three buttons of
`render_wallet_section` (lines 96-119): `{}` for connect,
`{require_chain_id}` for switch, `{tx_request, action}` for send. -/
inductive CommandPayload where
  | emptyPayload
  | switchPayload (requireChainId : Option ℤ)
  | sendPayload (txRequest : Option String) (action : String)
deriving DecidableEq

/-- A pending delegated-signing command (`mm_state["pending_command"]`). -/
structure PendingCmd where
  command : String
  payload : CommandPayload
  sequence : ℕ
deriving DecidableEq

/-- The per-slot MetaMask bridge state held in `mm_state` by
`render_wallet_section`. -/
structure MMState where
  pending : Option PendingCmd
  lastResult : Option ComponentValue
  walletAddress : Option String
  walletChain : Option ℤ
  lastValue : Option ComponentValue
deriving DecidableEq

/-- The session cache `st.session_state[DEFAULT_SESSION_KEY]`
(address and chain id of the connected wallet). -/
structure SessionCache where
  address : Option String
  chainId : Option ℤ
deriving DecidableEq

/-- The slot state after `setdefault(...)` initialisation
(lines 36-38 of `wallet_section.py`). -/
def mmInit : MMState := ⟨none, none, none, none, none⟩

/-- Inputs available to the button handlers of `render_wallet_section`: the
chain id, transaction request and action extracted from the tool payload
(lines 16-28). -/
structure RenderCtx where
  chainId : Option ℤ
  txReq : Option String
  action : String
deriving DecidableEq

/-- The three delegated-signing buttons rendered at lines 94-121. -/
inductive ButtonKind where
  | connect
  | switchNetwork
  | sendTransaction
deriving DecidableEq

/-- The correlation sequence minted at lines 99, 108 and 118:
`int(time() * 1000)`, i.e. the wall-clock millisecond reading at the moment
the button handler runs. The clock reading is an input of the model. -/
def mintSequence (nowMs : ℕ) : ℕ := nowMs

/-- Whether the pressed button issues a new pending command: the send button
is rendered disabled when no transaction request is available (line 113). -/
def issuesCommand (k : ButtonKind) (ctx : RenderCtx) : Bool :=
  match k with
  | .sendTransaction => ctx.txReq.isSome
  | _ => true

/-- The button handlers at lines 95-121: each stores a fresh
`pending_command` dict with a sequence minted from the wall clock. -/
def pressButton (k : ButtonKind) (ctx : RenderCtx) (nowMs : ℕ) (st : MMState) : MMState :=
  match k with
  | .connect =>
      { st with pending := some ⟨"connect", .emptyPayload, mintSequence nowMs⟩ }
  | .switchNetwork =>
      { st with pending := some ⟨"switch_network", .switchPayload ctx.chainId, mintSequence nowMs⟩ }
  | .sendTransaction =>
      if ctx.txReq.isSome then
        { st with pending := some ⟨"send_transaction", .sendPayload ctx.txReq ctx.action, mintSequence nowMs⟩ }
      else st

/-- Lines 62-76 of `wallet_section.py`: folding an externally supplied
component payload into `mm_state`. `last_value` is assigned unconditionally
whenever a payload arrives; the remaining fields change only when the
payload's `commandSequence` equals the pending command's `sequence`
(the `address` and `chainId` writes are guarded by Python truthiness). -/
def reconcileOutcome (st : MMState) (cv : Option ComponentValue) : MMState :=
  match cv with
  | none => st
  | some v =>
      let st1 := { st with lastValue := some v }
      match st.pending with
      | none => st1
      | some p =>
          if v.commandSequence = some p.sequence then
            let st2 := { st1 with lastResult := some v, pending := none }
            let st3 :=
              match v.address with
              | some a => if strTruthy a then { st2 with walletAddress := some a } else st2
              | none => st2
            match v.chainId with
            | some c => if c ≠ 0 then { st3 with walletChain := some c } else st3
            | none => st3
          else st1

/-- Lines 123-137 of `wallet_section.py`: the session cache is refreshed from
`last_result` (falling back to the cached wallet fields), with Python
truthiness guarding both writes and `setdefault` creating the dict. -/
def sessionSync (st : MMState) (sess : Option SessionCache) : Option SessionCache :=
  match st.lastResult with
  | none => sess
  | some lr =>
      let addrForSession := pyOrStr lr.address st.walletAddress
      let chainForSession := pyOrInt lr.chainId st.walletChain
      let sess1 :=
        if optStrTruthy addrForSession then
          some { (sess.getD ⟨none, none⟩) with address := addrForSession }
        else sess
      if optIntTruthy chainForSession then
        some { (sess1.getD ⟨none, none⟩) with chainId := chainForSession }
      else sess1

/-- One render pass over an externally supplied outcome: reconcile it into the
slot state, then refresh the session cache from the (possibly updated)
`last_result`. -/
def renderOutcome (st : MMState) (sess : Option SessionCache) (cv : Option ComponentValue) :
    MMState × Option SessionCache :=
  let st' := reconcileOutcome st cv
  (st', sessionSync st' sess)

/-- A render context used by concrete scenarios below. -/
def ctx0 : RenderCtx := ⟨some 1, none, "eth_sendTransaction"⟩

/-- A slot state with a pending `send_transaction` command of sequence 2000
and no recorded component payload yet. -/
def c2State : MMState :=
  ⟨some ⟨"send_transaction", .sendPayload (some "txreq") "eth_sendTransaction", 2000⟩,
    none, none, none, none⟩

/-- A stale externally supplied outcome: its sequence (1000) is the one of an
earlier command, not of the currently pending command (2000). -/
def c2Stale : ComponentValue :=
  ⟨some 1000, some "0xabc", some 5, some "0xhash", none, some "success"⟩

/-! ## Unit conversion (`pool_tools.py` lines 72-82)

Python `Decimal` values are modelled exactly: a finite decimal is an exact
rational, and the special values NaN and the two infinities are explicit
constructors.  Finite `Decimal` arithmetic at the operand sizes used here is
exact in Python as well: the default context carries 28 significant digits,
so every quotient `n / 10**d` with `n < 10**28` and every product appearing
below is computed exactly; the round-trip theorem carries that bound as a
hypothesis. -/

/-- A Python `Decimal` value: an exact finite rational, NaN, or an infinity. -/
inductive DecVal where
  | fin (q : ℚ)
  | nan
  | inf
  | ninf
deriving DecidableEq

/-- Python `int()` applied to an exact numeric value: truncation toward zero
(the numerator divided by the positive denominator, rounding toward zero). -/
def truncRat (q : ℚ) : ℤ := q.num.tdiv (q.den : ℤ)

/-- A value that may be passed for the `amount: float | int` parameter of the
tools, together with how `Decimal(str(amount))` and `int(amount)` behave on
it.  `rBool` is the `bool` subtype of `int`: `str(True)` is `"True"`, which
`Decimal` rejects, while `int(True)` is `1`.  `rDec` is a `Decimal` object
passed through (its `str` parses back exactly).  Non-finite floats print as
`"nan"`/`"inf"`, which `Decimal` accepts as NaN/Infinity, but `int()` rejects. -/
inductive RawAmount where
  | rInt (n : ℤ)
  | rFloatFin (q : ℚ)
  | rFloatNan
  | rFloatInf
  | rFloatNinf
  | rBool (b : Bool)
  | rDec (d : DecVal)
deriving DecidableEq

/-- `Decimal(str(amount))`: `none` models a raised exception. -/
def parseDec : RawAmount → Option DecVal
  | .rInt n => some (.fin (n : ℚ))
  | .rFloatFin q => some (.fin q)
  | .rFloatNan => some .nan
  | .rFloatInf => some .inf
  | .rFloatNinf => some .ninf
  | .rBool _ => none
  | .rDec d => some d

/-- `int(amount)`: truncating integer conversion, raising on non-finite
values and succeeding on `bool`. -/
def pyIntOf : RawAmount → PyResult ℤ
  | .rInt n => .ok n
  | .rFloatFin q => .ok (truncRat q)
  | .rFloatNan => .raised .valueError
  | .rFloatInf => .raised .overflowError
  | .rFloatNinf => .raised .overflowError
  | .rBool b => .ok (if b then 1 else 0)
  | .rDec (.fin q) => .ok (truncRat q)
  | .rDec .nan => .raised .invalidOperation
  | .rDec .inf => .raised .overflowError
  | .rDec .ninf => .raised .overflowError

/-- `Decimal` ordered comparison `<=`: an ordered comparison involving a
(quiet) NaN signals `InvalidOperation` in the `decimal` module. -/
def decLE : DecVal → DecVal → PyResult Bool
  | .nan, _ => .raised .invalidOperation
  | _, .nan => .raised .invalidOperation
  | .fin a, .fin b => .ok (decide (a ≤ b))
  | .fin _, .inf => .ok true
  | .fin _, .ninf => .ok false
  | .inf, .fin _ => .ok false
  | .inf, .inf => .ok true
  | .inf, .ninf => .ok false
  | .ninf, _ => .ok true

/-- `int(d * scale)` for a `Decimal` value `d` and an integral scale: exact
multiplication then truncation toward zero.  For a finite `d = num/den` the
product is the exact fraction `(num * scale) / den`, so `int()` of it is the
truncating division of `num * scale` by `den`; `int()` raises on NaN and
infinities. -/
def decTimesIntToInt : DecVal → ℤ → PyResult ℤ
  | .fin q, s => .ok ((q.num * s).tdiv (q.den : ℤ))
  | .nan, _ => .raised .invalidOperation
  | .inf, _ => .raised .overflowError
  | .ninf, _ => .raised .overflowError

/-- `_to_token_units` (pool_tools.py lines 72-78): inside a `try`, parse the
argument via `Decimal(str(amount))`, scale by `Decimal(10) ** decimals` and
truncate with `int(...)`; on any exception in the `try` body, fall back to
the truncating integer conversion `int(amount)` (whose own exception, if
any, escapes the helper). -/
def toTokenUnits (decimals : ℕ) (amount : RawAmount) : PyResult ℤ :=
  match parseDec amount with
  | none => pyIntOf amount
  | some d =>
      match decTimesIntToInt d ((10 : ℤ) ^ decimals) with
      | .ok n => .ok n
      | .raised _ => pyIntOf amount

/-- `_from_token_units` (pool_tools.py lines 80-82):
`(Decimal(amount) / scale) if amount else Decimal(0)` — the exact quotient
`amount / 10 ** decimals` as a rational (`Rat.divInt`). -/
def fromTokenUnits (decimals : ℕ) (amount : ℤ) : ℚ :=
  if amount ≠ 0 then Rat.divInt amount ((10 : ℤ) ^ decimals) else 0

/-- Rendering of a `Decimal` value inside message f-strings; display only
(the exact rational is printed, with the denominator when non-integral). -/
def decStr (q : ℚ) : String :=
  if q.den = 1 then toString q.num else toString q.num ++ "/" ++ toString q.den

/-! ## The lending-pool toolkit (`pool_tools.py`) -/

/-- A wallet address (Python strings in the source). -/
abbrev Addr := String

/-- A private key string. -/
abbrev Key := String

/-- A positional contract-call argument. -/
inductive Arg where
  | addr (a : Addr)
  | num (n : ℤ)
deriving DecidableEq

/-- The observable effects of a tool run, logged in order: contract view
reads, the nonce and fee fetches, transaction building, the combined
sign-and-broadcast step, and the building of a MetaMask request. -/
inductive Event where
  | contractRead (fn : String)
  | nonceFetch (sender : Addr)
  | feeFetch
  | txBuild (fn : String) (args : List Arg) (valueWei : ℤ)
  | signAndSend (fn : String)
  | metamaskReq (fn : String) (args : List Arg) (valueWei : ℤ)
deriving DecidableEq

/-- Modelled from the spec: `fee_params` of the absent `tx_helpers.py`
returns fee-market fields derived from configuration, recomputed per call
over the network. Only their presence matters here. -/
structure FeeParams where
  gasPrice : ℤ
deriving DecidableEq

/-- Modelled from the spec: the dict returned by `sign_and_send` of the
absent `tx_helpers.py` — either broadcast data (hash, receipt fields) or an
`"error"` entry, which the call sites test with `"error" not in sent`.
`repay_tool` additionally inserts a `"hint"` entry via `setdefault`. -/
structure SentDict where
  error : Option String
  txHash : String
  hint : Option String
deriving DecidableEq

/-- The transaction envelope assembled by `build_transaction` at the call
sites: function, arguments, from-address, fresh nonce, gas limit, chain id,
attached value and fee fields. -/
structure BuiltTx where
  fn : String
  args : List Arg
  sender : Addr
  nonce : ℤ
  gas : ℤ
  chainId : ℤ
  valueWei : ℤ
  gasPrice : ℤ
deriving DecidableEq

/-- Modelled from the spec: the unsigned request built by
`metamask_tx_request` of the absent `tx_helpers.py` — the call fields
without nonce or signature, for external signing. -/
structure TxRequest where
  fn : String
  args : List Arg
  valueWei : ℤ
  fromAddr : Option Addr
deriving DecidableEq

/-- A value inside a view-tool success payload. -/
inductive ViewVal where
  | vInt (n : ℤ)
  | vStr (s : String)
  | vBool (b : Bool)
deriving DecidableEq

/-- The payload of a successful tool result: a broadcast transaction, a
MetaMask hand-off (`_metamask_success`, lines 56-67), or read-only view
data. -/
inductive SuccessPayload where
  | sent (d : SentDict)
  | metamask (req : TxRequest) (action : String) (chainId : ℤ) (hint : String)
      (fromAddr : Option Addr)
  | viewData (fields : List (String × ViewVal))
deriving DecidableEq

/-- Modelled from the spec: `tool_success` / `tool_error` of the absent
`messages.py` produce the uniform result envelope every handler returns —
success with a payload, or failure with a human-readable reason. -/
inductive ToolResult where
  | success (payload : SuccessPayload)
  | failure (reason : String)
deriving DecidableEq

/-- The external collaborators of the toolkit, as deterministic oracles:
key derivation and address checksumming (pure validation), the contract's
view functions and their availability, transaction building, and — modelled
from the spec, since `tx_helpers.py` is not under `src/` — the network
helpers `next_nonce`, `fee_params`, `sign_and_send` and
`metamask_tx_request`.  A `PyResult.raised` value models the call raising. -/
structure ChainEnv where
  chainId : ℤ
  acctOfKey : Key → Option Addr
  toChecksum : String → Option Addr
  nonceOf : Addr → PyResult ℤ
  feeFields : PyResult FeeParams
  hasLoanStatusFn : Bool
  loanStatusCall : Addr → PyResult (Bool × ℤ × ℤ × ℤ × ℤ × Bool)
  getLoanCall : Addr → PyResult (ℤ × ℤ × ℤ × ℤ × Bool)
  isBannedCall : Addr → PyResult Bool
  hasLenderStatusFn : Bool
  lenderStatusCall : Addr → PyResult (ℤ × ℤ × ℤ × ℤ)
  totalDepositedCall : Addr → PyResult ℤ
  totalWithdrawnCall : Addr → PyResult ℤ
  lenderBalanceCall : Addr → PyResult ℤ
  previewWithdrawCall : Addr → PyResult ℤ
  hasCanOpenLoanFn : Bool
  canOpenLoanCall : Addr → ℤ → PyResult (Bool × String)
  availableLiquidityCall : PyResult ℤ
  buildOk : BuiltTx → PyResult Unit
  sendRaw : Key → BuiltTx → PyResult SentDict
  mmBuild : String → List Arg → ℤ → Addr → PyResult TxRequest

/-- The configuration captured by `build_lending_pool_toolkit`
(lines 17-34): decimals, keys, gas limit, and the per-role address and key
dictionaries (`dict.get` modelled as functions into `Option`). -/
structure PoolConfig where
  tokenDecimals : ℕ
  nativeDecimals : ℕ
  privateKey : Option Key
  envPrivateKey : Option Key
  defaultGasLimit : ℤ
  roleAddresses : String → Option Addr
  rolePrivateKeys : String → Option Key

/-- `private_key or os.getenv(PRIVATE_KEY_ENV)` (line 32). -/
def derivedPrivateKey (cfg : PoolConfig) : Option Key :=
  pyOrStr cfg.privateKey cfg.envPrivateKey

/-- `_acct_for_key` (lines 36-42): falsy keys yield `None`; key-derivation
failure is caught and yields `None`. -/
def acctForKey (env : ChainEnv) (key : Option Key) : Option Addr :=
  match key with
  | none => none
  | some k => if strTruthy k then env.acctOfKey k else none

/-- `role_private_keys.get("Owner") or derived_private_key` (line 44). -/
def ownerKey (cfg : PoolConfig) : Option Key :=
  pyOrStr (cfg.rolePrivateKeys "Owner") (derivedPrivateKey cfg)

/-- `role_private_keys.get("Lender") or None` (line 45). -/
def lenderKey (cfg : PoolConfig) : Option Key :=
  pyOrStr (cfg.rolePrivateKeys "Lender") none

/-- `role_private_keys.get("Borrower") or None` (line 46). -/
def borrowerKey (cfg : PoolConfig) : Option Key :=
  pyOrStr (cfg.rolePrivateKeys "Borrower") none

/-- `role_addresses.get("Owner") or _acct_for_key(owner_key)` (line 48). -/
def ownerAddress (env : ChainEnv) (cfg : PoolConfig) : Option Addr :=
  pyOrStr (cfg.roleAddresses "Owner") (acctForKey env (ownerKey cfg))

/-- `role_addresses.get("Lender") or _acct_for_key(lender_key)` (line 49). -/
def lenderAddress (env : ChainEnv) (cfg : PoolConfig) : Option Addr :=
  pyOrStr (cfg.roleAddresses "Lender") (acctForKey env (lenderKey cfg))

/-- `role_addresses.get("Borrower") or _acct_for_key(borrower_key)` (line 50). -/
def borrowerAddress (env : ChainEnv) (cfg : PoolConfig) : Option Addr :=
  pyOrStr (cfg.roleAddresses "Borrower") (acctForKey env (borrowerKey cfg))

/-- Rendering of an exception inside a message f-string. -/
def excStr : PyExc → String
  | .invalidOperation => "InvalidOperation"
  | .valueError => "ValueError"
  | .overflowError => "OverflowError"
  | .typeError => "TypeError"
  | .contractLogicError m => m
  | .networkError m => m
  | .otherExc m => m

/-- The two `except` clauses shared by every write tool:
`ContractLogicError` becomes `"Contract rejected: ..."`, anything else
becomes `"<op> failed: ..."`. -/
def catchMsg (opName : String) (e : PyExc) : String :=
  match e with
  | .contractLogicError m => "Contract rejected: " ++ m
  | _ => opName ++ " failed: " ++ excStr e

/-- Python `needle in haystack` on strings (substring containment). -/
def pyContains (haystack needle : String) : Bool :=
  decide (needle.toList <:+: haystack.toList)

/-- Python `str.lower()`, modelled on the character list. -/
def strLower (s : String) : String := ⟨s.data.map Char.toLower⟩

/-- Sequence one fallible effect: log its events; on a raise, produce the
handler's `except`-clause result; otherwise continue. -/
def runStep {α : Type} (ev : List Event) (x : PyResult α)
    (onErr : PyExc → PyResult ToolResult)
    (k : α → PyResult ToolResult × List Event) :
    PyResult ToolResult × List Event :=
  match x with
  | .raised e => (onErr e, ev)
  | .ok a => ((k a).1, ev ++ (k a).2)

/-- No MetaMask transaction request appears in an event trace. -/
def noMM (evs : List Event) : Prop :=
  ∀ f a v, Event.metamaskReq f a v ∉ evs

/-- No transaction is built, signed, broadcast, or handed to MetaMask in an
event trace (only reads and fee or nonce fetches may appear). -/
def noWrite (evs : List Event) : Prop :=
  ∀ f a v, Event.txBuild f a v ∉ evs ∧ Event.signAndSend f ∉ evs ∧
    Event.metamaskReq f a v ∉ evs

/-- The `try: build_transaction / sign_and_send` block shared by every local
signing path.  `feesFirst` reflects evaluation order at the call site: the
tools that call `_fees()` before `next_nonce` (openLoan, checkDefaultAndBan)
fetch fees first, the rest evaluate the transaction dict left to right and
fetch the nonce first.  `repay_tool` passes a hint installed with
`setdefault` on success. -/
def localFinish (env : ChainEnv) (cfg : PoolConfig) (opName fn : String)
    (key : Key) (sender : Addr) (args : List Arg) (valueWei : ℤ)
    (hint : Option String) (nonce : ℤ) (fees : FeeParams) :
    PyResult ToolResult × List Event :=
  let caught := fun e => PyResult.ok (ToolResult.failure (catchMsg opName e))
  let tx : BuiltTx :=
    ⟨fn, args, sender, nonce, cfg.defaultGasLimit, env.chainId, valueWei, fees.gasPrice⟩
  runStep [.txBuild fn args valueWei] (env.buildOk tx) caught fun _ =>
  runStep [.signAndSend fn] (env.sendRaw key tx) caught fun sent =>
    match sent.error with
    | some m => (.ok (.failure m), [])
    | none =>
        match hint with
        | none => (.ok (.success (.sent sent)), [])
        | some h => (.ok (.success (.sent { sent with hint := some (sent.hint.getD h) })), [])

/-- The full local signing path: fetch fees and nonce (in the evaluation
order of the call site: the tools that call `_fees()` before `next_nonce`
— openLoan, checkDefaultAndBan — fetch fees first, the rest evaluate the
transaction dict left to right and fetch the nonce first), then build, sign
and broadcast via `localFinish`; every raise is caught by the two `except`
clauses. -/
def localSend (env : ChainEnv) (cfg : PoolConfig) (opName fn : String)
    (key : Key) (sender : Addr) (args : List Arg) (valueWei : ℤ)
    (feesFirst : Bool) (hint : Option String) :
    PyResult ToolResult × List Event :=
  let caught := fun e => PyResult.ok (ToolResult.failure (catchMsg opName e))
  if feesFirst then
    runStep [.feeFetch] env.feeFields caught fun fees =>
    runStep [.nonceFetch sender] (env.nonceOf sender) caught fun nonce =>
      localFinish env cfg opName fn key sender args valueWei hint nonce fees
  else
    runStep [.nonceFetch sender] (env.nonceOf sender) caught fun nonce =>
    runStep [.feeFetch] env.feeFields caught fun fees =>
      localFinish env cfg opName fn key sender args valueWei hint nonce fees

/-- The `try: metamask_tx_request / _metamask_success` block shared by every
delegated path: build the unsigned request and wrap it in a success payload
(`_metamask_success`, lines 56-67); a build failure is caught. -/
def mmPath (env : ChainEnv) (fn : String) (args : List Arg) (valueWei : ℤ)
    (fromAddr : Addr) (hint : String) : PyResult ToolResult × List Event :=
  match env.mmBuild fn args valueWei fromAddr with
  | .raised e =>
      (.ok (.failure ("Unable to build MetaMask tx: " ++ excStr e)),
        [.metamaskReq fn args valueWei])
  | .ok req =>
      (.ok (.success (.metamask req "eth_sendTransaction" env.chainId hint
          (if strTruthy fromAddr then some fromAddr else none))),
        [.metamaskReq fn args valueWei])

/-- `_loan_status` (lines 84-94): prefer the `loanStatus` view, else combine
`getLoan` and `isBanned` into the same shape
`(active, principal, outstanding, startTime, dueTime, banned)`; any
exception is caught and yields `None`. -/
def loanStatusH (env : ChainEnv) (a : Addr) :
    Option (Bool × ℤ × ℤ × ℤ × ℤ × Bool) × List Event :=
  if env.hasLoanStatusFn then
    match env.loanStatusCall a with
    | .ok st => (some st, [.contractRead "loanStatus"])
    | .raised _ => (none, [.contractRead "loanStatus"])
  else
    match env.getLoanCall a with
    | .raised _ => (none, [.contractRead "getLoan"])
    | .ok (principal, outstanding, startTime, dueTime, active) =>
        match env.isBannedCall a with
        | .raised _ => (none, [.contractRead "getLoan", .contractRead "isBanned"])
        | .ok banned =>
            (some (active, principal, outstanding, startTime, dueTime, banned),
              [.contractRead "getLoan", .contractRead "isBanned"])

/-- `_lender_status` (lines 96-107): prefer the `lenderStatus` view, else the
fallback trio plus `previewWithdraw`, shaped as
`(totalDeposited, totalWithdrawn, balance, unlockable)`; any exception is
caught and yields `None`. -/
def lenderStatusH (env : ChainEnv) (a : Addr) :
    Option (ℤ × ℤ × ℤ × ℤ) × List Event :=
  if env.hasLenderStatusFn then
    match env.lenderStatusCall a with
    | .ok st => (some st, [.contractRead "lenderStatus"])
    | .raised _ => (none, [.contractRead "lenderStatus"])
  else
    match env.totalDepositedCall a with
    | .raised _ => (none, [.contractRead "totalDeposited"])
    | .ok td =>
        match env.totalWithdrawnCall a with
        | .raised _ => (none, [.contractRead "totalDeposited", .contractRead "totalWithdrawn"])
        | .ok tw =>
            match env.lenderBalanceCall a with
            | .raised _ => (none,
                [.contractRead "totalDeposited", .contractRead "totalWithdrawn",
                  .contractRead "lenderBalance"])
            | .ok bal =>
                match env.previewWithdrawCall a with
                | .raised _ => (none,
                    [.contractRead "totalDeposited", .contractRead "totalWithdrawn",
                      .contractRead "lenderBalance", .contractRead "previewWithdraw"])
                | .ok unl =>
                    (some (td, tw, bal, unl),
                      [.contractRead "totalDeposited", .contractRead "totalWithdrawn",
                        .contractRead "lenderBalance", .contractRead "previewWithdraw"])

/-- `_can_open_loan` (lines 109-134): use the contract's `canOpenLoan`
checker when available (its `bytes` reason decoding is display-only and the
reason is modelled as a string); otherwise evaluate the local policy: loan
status readable, not banned, no active loan with nonzero outstanding, and
sufficient pool liquidity.  The whole body is inside `try`, so any raise is
caught into `(False, "Unable to evaluate loan conditions: ...")`. -/
def canOpenLoanH (env : ChainEnv) (cfg : PoolConfig) (a : Addr)
    (principalUnits : ℤ) : (Bool × String) × List Event :=
  if env.hasCanOpenLoanFn then
    match env.canOpenLoanCall a principalUnits with
    | .ok r => (r, [.contractRead "canOpenLoan"])
    | .raised e =>
        ((false, "Unable to evaluate loan conditions: " ++ excStr e),
          [.contractRead "canOpenLoan"])
  else
    match loanStatusH env a with
    | (none, ev1) => ((false, "Unable to read loan status"), ev1)
    | (some (active, _, outstanding, _, _, banned), ev1) =>
        if banned then ((false, "Borrower is banned"), ev1)
        else if active ∧ outstanding ≠ 0 then
          ((false, "Borrower has an active loan outstanding (" ++
              decStr (fromTokenUnits cfg.nativeDecimals outstanding) ++ " units)"), ev1)
        else
          match env.availableLiquidityCall with
          | .raised e =>
              ((false, "Unable to evaluate loan conditions: " ++ excStr e),
                ev1 ++ [.contractRead "availableLiquidity"])
          | .ok available =>
              if available < principalUnits then
                ((false, "Insufficient pool liquidity"),
                  ev1 ++ [.contractRead "availableLiquidity"])
              else ((true, "OK"), ev1 ++ [.contractRead "availableLiquidity"])

/-- `deposit_tool` (lines 255-306): parse and validate the amount (the
`Decimal` construction is inside `try`, the positivity comparison is not, so
a NaN amount raises out of the handler), convert to base units, then take
the local signing path when the lender key is usable, else the MetaMask
path when a lender address is configured, else fail.
The deposit attaches the converted amount as native value. -/
def depositTool (env : ChainEnv) (cfg : PoolConfig) (amount : RawAmount) :
    PyResult ToolResult × List Event :=
  match parseDec amount with
  | none => (.ok (.failure "Invalid amount supplied; enter a numeric value."), [])
  | some amtDecimal =>
      match decLE amtDecimal (.fin 0) with
      | .raised e => (.raised e, [])
      | .ok true => (.ok (.failure "Amount must be greater than zero."), [])
      | .ok false =>
          match toTokenUnits cfg.nativeDecimals (.rDec amtDecimal) with
          | .raised e => (.ok (.failure ("Invalid amount: " ++ excStr e)), [])
          | .ok amt =>
              let signer := acctForKey env (lenderKey cfg)
              if optStrTruthy signer && optStrTruthy (lenderKey cfg) then
                localSend env cfg "deposit" "deposit" ((lenderKey cfg).getD "")
                  (signer.getD "") [.num amt] amt false none
              else if optStrTruthy (lenderAddress env cfg) then
                mmPath env "deposit" [.num amt] amt ((lenderAddress env cfg).getD "")
                  "Use MetaMask (lender wallet) to deposit native USDC into the pool."
              else
                (.ok (.failure "Lender wallet not configured. Assign a lender address via MetaMask role assignment or set LENDER_PRIVATE_KEY."), [])

/-- The trailing path selection of `withdraw_tool` (lines 355-392): local
signing with the lender key, else MetaMask with the lender address, else
failure; `ev1` is the trace of the preceding status read. -/
def withdrawPaths (env : ChainEnv) (cfg : PoolConfig) (amt : ℤ)
    (ev1 : List Event) : PyResult ToolResult × List Event :=
  let signer := acctForKey env (lenderKey cfg)
  if optStrTruthy signer && optStrTruthy (lenderKey cfg) then
    let r := localSend env cfg "withdraw" "withdraw"
      ((lenderKey cfg).getD "") (signer.getD "") [.num amt] 0 false none
    (r.1, ev1 ++ r.2)
  else if optStrTruthy (lenderAddress env cfg) then
    let r := mmPath env "withdraw" [.num amt] 0
      ((lenderAddress env cfg).getD "")
      "Use MetaMask (lender wallet) to withdraw unlocked funds."
    (r.1, ev1 ++ r.2)
  else
    (.ok (.failure "Lender wallet not configured. Assign a lender address via MetaMask role assignment or set LENDER_PRIVATE_KEY."), ev1)

/-- `withdraw_tool` (lines 319-392): parse and validate the amount, resolve a
status address (checksummed lender address, else the address derived from
the lender key), and when the lender status is readable reject any request
whose base-unit amount exceeds the reported unlockable amount before taking
the local or MetaMask path.  A withdrawal attaches no native value. -/
def withdrawTool (env : ChainEnv) (cfg : PoolConfig) (amount : RawAmount) :
    PyResult ToolResult × List Event :=
  match parseDec amount with
  | none => (.ok (.failure "Invalid amount supplied; enter a numeric value."), [])
  | some amtDecimal =>
      match decLE amtDecimal (.fin 0) with
      | .raised e => (.raised e, [])
      | .ok true => (.ok (.failure "Amount must be greater than zero."), [])
      | .ok false =>
          match toTokenUnits cfg.nativeDecimals (.rDec amtDecimal) with
          | .raised e => (.ok (.failure ("Invalid amount: " ++ excStr e)), [])
          | .ok amt =>
              let statusAddress : Option Addr :=
                match
                  (if optStrTruthy (lenderAddress env cfg) then
                    env.toChecksum ((lenderAddress env cfg).getD "")
                  else none) with
                | some x => some x
                | none =>
                    let signer := acctForKey env (lenderKey cfg)
                    if optStrTruthy signer then env.toChecksum (signer.getD "") else none
              match statusAddress with
              | none => withdrawPaths env cfg amt []
              | some sa =>
                  match lenderStatusH env sa with
                  | (none, ev1) => withdrawPaths env cfg amt ev1
                  | (some (_, _, _, unlockable), ev1) =>
                      if amt > unlockable then
                        (.ok (.failure ("Requested withdrawal exceeds unlocked balance (" ++
                            decStr (fromTokenUnits cfg.nativeDecimals unlockable) ++ " available).")), ev1)
                      else withdrawPaths env cfg amt ev1

/-- `openLoan_tool` (lines 405-473): checksum the borrower, parse and
validate the principal, convert to base units, run `_can_open_loan`; on
refusal, a reason containing "active loan" triggers a second status read to
render the outstanding amount; otherwise take the local (owner key) or
MetaMask (owner address) path.  `openLoan` fetches fees before the nonce. -/
def openLoanTool (env : ChainEnv) (cfg : PoolConfig) (borrowerAddr : String)
    (principal : RawAmount) (termSeconds : ℤ) : PyResult ToolResult × List Event :=
  match env.toChecksum borrowerAddr with
  | none => (.ok (.failure "Invalid borrower address supplied."), [])
  | some borrower =>
      match parseDec principal with
      | none => (.ok (.failure "Invalid principal supplied; enter a numeric value."), [])
      | some pDec =>
          match decLE pDec (.fin 0) with
          | .raised e => (.raised e, [])
          | .ok true => (.ok (.failure "Principal must be greater than zero."), [])
          | .ok false =>
              match toTokenUnits cfg.nativeDecimals (.rDec pDec) with
              | .raised e => (.ok (.failure ("Invalid principal: " ++ excStr e)), [])
              | .ok principalUnits =>
                  match canOpenLoanH env cfg borrower principalUnits with
                  | ((ok, reason), ev1) =>
                      if !ok then
                        if pyContains (strLower reason) "active loan" then
                          match loanStatusH env borrower with
                          | (some (_, _, outstanding, _, _, _), ev2) =>
                              (.ok (.failure ("Cannot open loan: borrower has an active loan outstanding (" ++
                                  decStr (fromTokenUnits cfg.nativeDecimals outstanding) ++ " native units).")),
                                ev1 ++ ev2)
                          | (none, ev2) =>
                              (.ok (.failure ("Cannot open loan: " ++ reason)), ev1 ++ ev2)
                        else (.ok (.failure ("Cannot open loan: " ++ reason)), ev1)
                      else
                        let signer := acctForKey env (ownerKey cfg)
                        if optStrTruthy signer && optStrTruthy (ownerKey cfg) then
                          let r := localSend env cfg "openLoan" "openLoan"
                            ((ownerKey cfg).getD "") (signer.getD "")
                            [.addr borrower, .num principalUnits, .num termSeconds] 0 true none
                          (r.1, ev1 ++ r.2)
                        else if optStrTruthy (ownerAddress env cfg) then
                          let r := mmPath env "openLoan"
                            [.addr borrower, .num principalUnits, .num termSeconds] 0
                            ((ownerAddress env cfg).getD "")
                            "Use MetaMask (owner wallet) to open a loan."
                          (r.1, ev1 ++ r.2)
                        else
                          (.ok (.failure "Owner wallet not configured. Assign an owner address via MetaMask role assignment or set PRIVATE_KEY."), ev1)

/-- `repay_tool` (lines 490-557): resolve the borrower address (configured
address or key-derived), checksum it, read the loan status; fail without
building anything when the status is unreadable, the borrower is banned, or
there is no active loan with nonzero outstanding.  Otherwise repay exactly
the outstanding amount, attaching it as native value, via the local path
(borrower key) or MetaMask (configured borrower address). -/
def repayTool (env : ChainEnv) (cfg : PoolConfig) : PyResult ToolResult × List Event :=
  let borrowerAddr0 := pyOrStr (borrowerAddress env cfg) (acctForKey env (borrowerKey cfg))
  if !optStrTruthy borrowerAddr0 then
    (.ok (.failure "Borrower wallet not configured. Assign a borrower address via MetaMask role assignment or set BORROWER_PRIVATE_KEY."), [])
  else
    match env.toChecksum (borrowerAddr0.getD "") with
    | none => (.ok (.failure "Borrower address is not valid."), [])
    | some borrower =>
        match loanStatusH env borrower with
        | (none, ev1) =>
            (.ok (.failure "Unable to read borrower loan status; ensure contract is upgraded."), ev1)
        | (some (active, _, outstanding, _, _, banned), ev1) =>
            if banned then
              (.ok (.failure "Borrower is banned; repay unavailable until unbanned."), ev1)
            else if !active || outstanding = 0 then
              (.ok (.failure "No active loan to repay."), ev1)
            else
              let amt := outstanding
              let hint := "Repay outstanding balance (" ++
                decStr (fromTokenUnits cfg.nativeDecimals amt) ++ " in native units)."
              let signer := acctForKey env (borrowerKey cfg)
              if optStrTruthy signer && optStrTruthy (borrowerKey cfg) then
                let r := localSend env cfg "repay" "repay" ((borrowerKey cfg).getD "")
                  (signer.getD "") [.num amt] amt false (some hint)
                (r.1, ev1 ++ r.2)
              else if optStrTruthy (borrowerAddress env cfg) then
                let r := mmPath env "repay" [.num amt] amt
                  ((borrowerAddress env cfg).getD "") hint
                (r.1, ev1 ++ r.2)
              else
                (.ok (.failure "Borrower wallet not configured. Assign a borrower address via MetaMask role assignment or set BORROWER_PRIVATE_KEY."), ev1)

/-- `checkDefaultAndBan_tool` (lines 570-614): checksum the borrower, then
local path with the owner key (fees fetched before the nonce), else
MetaMask with the owner address, else fail. -/
def checkDefaultAndBanTool (env : ChainEnv) (cfg : PoolConfig)
    (borrowerAddr : String) : PyResult ToolResult × List Event :=
  let signer := acctForKey env (ownerKey cfg)
  match env.toChecksum borrowerAddr with
  | none => (.ok (.failure "Invalid borrower address supplied."), [])
  | some borrower =>
      if optStrTruthy signer && optStrTruthy (ownerKey cfg) then
        localSend env cfg "checkDefaultAndBan" "checkDefaultAndBan"
          ((ownerKey cfg).getD "") (signer.getD "") [.addr borrower] 0 true none
      else if optStrTruthy (ownerAddress env cfg) then
        mmPath env "checkDefaultAndBan" [.addr borrower] 0
          ((ownerAddress env cfg).getD "")
          "Use MetaMask (owner wallet) to check default and ban overdue borrower."
      else
        (.ok (.failure "Owner wallet not configured. Assign an owner address via MetaMask role assignment or set PRIVATE_KEY."), [])

/-- `setDepositLockSeconds_tool` (lines 627-665): owner-only setter. -/
def setDepositLockSecondsTool (env : ChainEnv) (cfg : PoolConfig)
    (seconds : ℤ) : PyResult ToolResult × List Event :=
  let signer := acctForKey env (ownerKey cfg)
  if optStrTruthy signer && optStrTruthy (ownerKey cfg) then
    localSend env cfg "setDepositLockSeconds" "setDepositLockSeconds"
      ((ownerKey cfg).getD "") (signer.getD "") [.num seconds] 0 false none
  else if optStrTruthy (ownerAddress env cfg) then
    mmPath env "setDepositLockSeconds" [.num seconds] 0
      ((ownerAddress env cfg).getD "")
      "Use MetaMask (owner wallet) to update deposit lock duration."
  else
    (.ok (.failure "Owner wallet not configured. Assign an owner address via MetaMask role assignment or set PRIVATE_KEY."), [])

/-- `setTrustMintSbt_tool` (lines 678-721): checksum the SBT address, then
owner-only setter. -/
def setTrustMintSbtTool (env : ChainEnv) (cfg : PoolConfig)
    (sbtAddr : String) : PyResult ToolResult × List Event :=
  match env.toChecksum sbtAddr with
  | none => (.ok (.failure "Invalid SBT address supplied."), [])
  | some sbt =>
      let signer := acctForKey env (ownerKey cfg)
      if optStrTruthy signer && optStrTruthy (ownerKey cfg) then
        localSend env cfg "setTrustMintSbt" "setTrustMintSbt"
          ((ownerKey cfg).getD "") (signer.getD "") [.addr sbt] 0 false none
      else if optStrTruthy (ownerAddress env cfg) then
        mmPath env "setTrustMintSbt" [.addr sbt] 0
          ((ownerAddress env cfg).getD "")
          "Use MetaMask (owner wallet) to set TrustMint SBT address (0x0 to disable)."
      else
        (.ok (.failure "Owner wallet not configured. Assign an owner address via MetaMask role assignment or set PRIVATE_KEY."), [])

/-- `setMinScoreToBorrow_tool` (lines 734-772): owner-only setter. -/
def setMinScoreToBorrowTool (env : ChainEnv) (cfg : PoolConfig)
    (newMinScore : ℤ) : PyResult ToolResult × List Event :=
  let signer := acctForKey env (ownerKey cfg)
  if optStrTruthy signer && optStrTruthy (ownerKey cfg) then
    localSend env cfg "setMinScoreToBorrow" "setMinScoreToBorrow"
      ((ownerKey cfg).getD "") (signer.getD "") [.num newMinScore] 0 false none
  else if optStrTruthy (ownerAddress env cfg) then
    mmPath env "setMinScoreToBorrow" [.num newMinScore] 0
      ((ownerAddress env cfg).getD "")
      "Use MetaMask (owner wallet) to set minimum score for borrowing."
  else
    (.ok (.failure "Owner wallet not configured. Assign an owner address via MetaMask role assignment or set PRIVATE_KEY."), [])

/-- `unban_tool` (lines 785-828): checksum the borrower, then owner-only
write. -/
def unbanTool (env : ChainEnv) (cfg : PoolConfig) (borrowerAddr : String) :
    PyResult ToolResult × List Event :=
  match env.toChecksum borrowerAddr with
  | none => (.ok (.failure "Invalid borrower address supplied."), [])
  | some borrower =>
      let signer := acctForKey env (ownerKey cfg)
      if optStrTruthy signer && optStrTruthy (ownerKey cfg) then
        localSend env cfg "unban" "unban"
          ((ownerKey cfg).getD "") (signer.getD "") [.addr borrower] 0 false none
      else if optStrTruthy (ownerAddress env cfg) then
        mmPath env "unban" [.addr borrower] 0
          ((ownerAddress env cfg).getD "")
          "Use MetaMask (owner wallet) to unban borrower after remedy."
      else
        (.ok (.failure "Owner wallet not configured. Assign an owner address via MetaMask role assignment or set PRIVATE_KEY."), [])

/-- `availableLiquidity_tool` (lines 137-142): read-only view wrapped in
`try`. -/
def availableLiquidityTool (env : ChainEnv) : PyResult ToolResult × List Event :=
  match env.availableLiquidityCall with
  | .ok n =>
      (.ok (.success (.viewData [("availableLiquidity", .vInt n)])),
        [.contractRead "availableLiquidity"])
  | .raised e =>
      (.ok (.failure ("Read failed: " ++ excStr e)), [.contractRead "availableLiquidity"])

/-- `lenderBalance_tool` (lines 151-157): read-only view; the checksum is
inside the `try`, so an invalid address is reported as a read failure. -/
def lenderBalanceTool (env : ChainEnv) (lenderAddr : String) :
    PyResult ToolResult × List Event :=
  match env.toChecksum lenderAddr with
  | none => (.ok (.failure ("Read failed: " ++ excStr .valueError)), [])
  | some l =>
      match env.lenderBalanceCall l with
      | .ok amt =>
          (.ok (.success (.viewData [("lender", .vStr l), ("balance", .vInt amt)])),
            [.contractRead "lenderBalance"])
      | .raised e =>
          (.ok (.failure ("Read failed: " ++ excStr e)), [.contractRead "lenderBalance"])

/-- `lenderStatus_tool` (lines 170-189): checksum with its own
`except ValueError`, then `_lender_status`, else an aggregated view
payload. -/
def lenderStatusTool (env : ChainEnv) (cfg : PoolConfig) (lenderAddr : String) :
    PyResult ToolResult × List Event :=
  match env.toChecksum lenderAddr with
  | none => (.ok (.failure "Invalid lender address supplied."), [])
  | some l =>
      match lenderStatusH env l with
      | (none, ev1) =>
          (.ok (.failure "Unable to read lender status; ensure contract is upgraded."), ev1)
      | (some (td, tw, bal, unl), ev1) =>
          (.ok (.success (.viewData
            [("lender", .vStr l), ("totalDeposited", .vInt td),
              ("totalWithdrawn", .vInt tw), ("currentBalance", .vInt bal),
              ("currentBalanceHuman", .vStr (decStr (fromTokenUnits cfg.nativeDecimals bal))),
              ("unlockable", .vInt unl),
              ("unlockableHuman", .vStr (decStr (fromTokenUnits cfg.nativeDecimals unl)))])), ev1)

/-- `getLoan_tool` (lines 202-222): read-only loan view; the checksum is
inside the `try`. -/
def getLoanTool (env : ChainEnv) (cfg : PoolConfig) (borrowerAddr : String) :
    PyResult ToolResult × List Event :=
  match env.toChecksum borrowerAddr with
  | none => (.ok (.failure ("Read failed: " ++ excStr .valueError)), [])
  | some b =>
      match loanStatusH env b with
      | (none, ev1) => (.ok (.failure "Unable to read loan status for borrower."), ev1)
      | (some (active, principal, outstanding, startTime, dueTime, banned), ev1) =>
          (.ok (.success (.viewData
            [("borrower", .vStr b), ("principal", .vInt principal),
              ("outstanding", .vInt outstanding),
              ("outstandingHuman", .vStr (decStr (fromTokenUnits cfg.nativeDecimals outstanding))),
              ("startTime", .vInt startTime), ("dueTime", .vInt dueTime),
              ("active", .vBool active), ("banned", .vBool banned)])), ev1)

/-- `isBanned_tool` (lines 235-241): read-only view; the checksum is inside
the `try`. -/
def isBannedTool (env : ChainEnv) (borrowerAddr : String) :
    PyResult ToolResult × List Event :=
  match env.toChecksum borrowerAddr with
  | none => (.ok (.failure ("Read failed: " ++ excStr .valueError)), [])
  | some b =>
      match env.isBannedCall b with
      | .ok banned =>
          (.ok (.success (.viewData [("borrower", .vStr b), ("banned", .vBool banned)])),
            [.contractRead "isBanned"])
      | .raised e =>
          (.ok (.failure ("Read failed: " ++ excStr e)), [.contractRead "isBanned"])

/-- `_render_tool_runner` (mcp_tools.py lines 84-92): the dispatch boundary
around a handler invocation — a raised `TypeError` is reported as a
parameter mismatch, any other raised exception as a failed execution, and a
returned envelope is displayed; nothing propagates further. -/
inductive RunnerOutcome where
  | paramMismatch (msg : String)
  | executionFailed (msg : String)
  | completed (r : ToolResult)
deriving DecidableEq

/-- The `try/except` dispatch of `_render_tool_runner` applied to a handler
outcome. -/
def runToolBoundary (r : PyResult ToolResult) : RunnerOutcome :=
  match r with
  | .raised .typeError => .paramMismatch ("Parameter mismatch: " ++ excStr .typeError)
  | .raised e => .executionFailed ("Tool execution failed: " ++ excStr e)
  | .ok res => .completed res

/-! ## Concrete scenarios -/

/-- A benign concrete environment: every oracle succeeds with simple values,
the preferred view functions are present, and checksumming accepts any
string unchanged. Scenarios below override individual fields. -/
def envBase : ChainEnv where
  chainId := 5042
  acctOfKey := fun _ => some "0xDerived"
  toChecksum := fun s => some s
  nonceOf := fun _ => .ok 1
  feeFields := .ok ⟨1⟩
  hasLoanStatusFn := true
  loanStatusCall := fun _ => .ok (false, 0, 0, 0, 0, false)
  getLoanCall := fun _ => .raised (.otherExc "getLoan unavailable")
  isBannedCall := fun _ => .ok false
  hasLenderStatusFn := true
  lenderStatusCall := fun _ => .ok (0, 0, 0, 0)
  totalDepositedCall := fun _ => .raised (.otherExc "view unavailable")
  totalWithdrawnCall := fun _ => .raised (.otherExc "view unavailable")
  lenderBalanceCall := fun _ => .ok 0
  previewWithdrawCall := fun _ => .raised (.otherExc "view unavailable")
  hasCanOpenLoanFn := false
  canOpenLoanCall := fun _ _ => .raised (.otherExc "checker unavailable")
  availableLiquidityCall := .ok 1000
  buildOk := fun _ => .ok ()
  sendRaw := fun _ _ => .ok ⟨none, "0xhash", none⟩
  mmBuild := fun fn args v fromA => .ok ⟨fn, args, v, some fromA⟩

/-- A configuration with no keys and no role addresses at all. -/
def cfgNone : PoolConfig where
  tokenDecimals := 6
  nativeDecimals := 0
  privateKey := none
  envPrivateKey := none
  defaultGasLimit := 200000
  roleAddresses := fun _ => none
  rolePrivateKeys := fun _ => none

/-- A configuration with a private key for every role. -/
def cfgAllKeys : PoolConfig :=
  { cfgNone with
    rolePrivateKeys := fun r =>
      if r = "Owner" then some "okey"
      else if r = "Lender" then some "lkey"
      else if r = "Borrower" then some "bkey"
      else none }

/-- A configuration with only a lender role address (delegated signing). -/
def cfgLenderAddr : PoolConfig :=
  { cfgNone with
    roleAddresses := fun r => if r = "Lender" then some "0xLender" else none }

/-- An environment where the borrower's loan reads back as inactive with a
nonzero outstanding balance. -/
def envInactiveDebt : ChainEnv :=
  { envBase with
    loanStatusCall := fun _ => .ok (false, 10, 10, 0, 0, false),
    availableLiquidityCall := .ok 100 }

/-- An environment where the borrower has an active loan of outstanding 10. -/
def envActiveDebt : ChainEnv :=
  { envBase with loanStatusCall := fun _ => .ok (true, 10, 10, 0, 0, false) }

/-- An environment where the lender's unlockable amount reads back as 50. -/
def envUnlock50 : ChainEnv :=
  { envBase with lenderStatusCall := fun _ => .ok (100, 50, 50, 50) }

/-! ## Theorems -/

/-- C1 (counterexample): two commands issued while the wall clock reads the
same millisecond (`int(time() * 1000)` returns 1000 both times) receive the
same correlation sequence, so the second sequence is not strictly greater
than the previously issued one. -/
theorem c1_counterexample :
    (pressButton .connect ctx0 1000 mmInit).pending.map PendingCmd.sequence = some 1000 ∧
    (pressButton .switchNetwork ctx0 1000
        (pressButton .connect ctx0 1000 mmInit)).pending.map PendingCmd.sequence = some 1000 ∧
    ¬ (1000 : ℕ) < 1000 := by
  decide

/-- C1 (amended): the correlation sequence minted for a newly issued pending
command equals the wall-clock millisecond reading at issuance, so it is
strictly greater than the sequence of a previously issued command whenever
the clock reading strictly increased between the two issuances. -/
theorem c1_sequence_monotone_of_clock_advance
    (k1 k2 : ButtonKind) (ctx1 ctx2 : RenderCtx) (t1 t2 : ℕ) (st : MMState)
    (h1 : issuesCommand k1 ctx1 = true) (h2 : issuesCommand k2 ctx2 = true)
    (hlt : t1 < t2) :
    ∃ p1 p2 : PendingCmd,
      (pressButton k1 ctx1 t1 st).pending = some p1 ∧
      (pressButton k2 ctx2 t2 (pressButton k1 ctx1 t1 st)).pending = some p2 ∧
      p1.sequence < p2.sequence := by
  cases k1 <;> cases k2 <;>
    simp_all [pressButton, issuesCommand, mintSequence, Option.isSome_iff_exists]

/-- C1 witness: the amended statement applied with clock readings 1 and 2. -/
theorem c1_witness :
    (issuesCommand .connect ctx0 = true ∧ issuesCommand .switchNetwork ctx0 = true ∧ (1 : ℕ) < 2) ∧
    (∃ p1 p2 : PendingCmd,
      (pressButton .connect ctx0 1 mmInit).pending = some p1 ∧
      (pressButton .switchNetwork ctx0 2 (pressButton .connect ctx0 1 mmInit)).pending = some p2 ∧
      p1.sequence < p2.sequence) :=
  ⟨⟨by decide, by decide, by decide⟩,
    c1_sequence_monotone_of_clock_advance .connect .switchNetwork ctx0 ctx0 1 2 mmInit
      (by decide) (by decide) (by decide)⟩

/-- C2 (counterexample): an externally supplied outcome whose sequence (1000)
differs from the pending command's sequence (2000) still mutates the slot
state: `last_value` is overwritten with the stale payload, so the stale
outcome is not a complete no-op over the listed fields. -/
theorem c2_counterexample :
    c2Stale.commandSequence ≠ c2State.pending.map PendingCmd.sequence ∧
    (reconcileOutcome c2State (some c2Stale)).lastValue = some c2Stale ∧
    c2State.lastValue = none ∧
    reconcileOutcome c2State (some c2Stale) ≠ c2State := by
  decide

/-- C2 (amended): an externally supplied outcome whose sequence does not equal
the pending command's sequence leaves `pending_command`, `last_result`,
`wallet_address` and `wallet_chain` unchanged — only `last_value` is
overwritten with the stale payload — and the session cache after the render
pass is exactly what it would have been with no outcome at all. -/
theorem c2_stale_outcome_frame (st : MMState) (sess : Option SessionCache)
    (v : ComponentValue) (p : PendingCmd)
    (hp : st.pending = some p) (hseq : v.commandSequence ≠ some p.sequence) :
    reconcileOutcome st (some v) = { st with lastValue := some v } ∧
    (renderOutcome st sess (some v)).2 = sessionSync st sess := by
  have h1 : reconcileOutcome st (some v) = { st with lastValue := some v } := by
    unfold reconcileOutcome
    rw [hp]
    simp [hseq]
  refine ⟨h1, ?_⟩
  show sessionSync (reconcileOutcome st (some v)) sess = sessionSync st sess
  rw [h1]
  rfl

/-- C2 witness: the amended statement applied to the concrete stale scenario. -/
theorem c2_stale_witness :
    (c2State.pending = some ⟨"send_transaction", .sendPayload (some "txreq") "eth_sendTransaction", 2000⟩ ∧
      c2Stale.commandSequence ≠ some (2000 : ℕ)) ∧
    (reconcileOutcome c2State (some c2Stale) = { c2State with lastValue := some c2Stale } ∧
      (renderOutcome c2State none (some c2Stale)).2 = sessionSync c2State none) :=
  ⟨⟨by decide, by decide⟩,
    c2_stale_outcome_frame c2State none c2Stale
      ⟨"send_transaction", .sendPayload (some "txreq") "eth_sendTransaction", 2000⟩
      (by decide) (by decide)⟩

/-- Helper: a `runStep` whose exception handler and continuation both
return an envelope returns an envelope. -/
theorem runStep_fst_ok {α : Type} (ev : List Event) (x : PyResult α)
    (onErr : PyExc → PyResult ToolResult)
    (k : α → PyResult ToolResult × List Event)
    (h1 : ∀ e, ∃ r, onErr e = .ok r) (h2 : ∀ a, ∃ r, (k a).1 = .ok r) :
    ∃ r, (runStep ev x onErr k).1 = .ok r := by
  cases x with
  | raised e => simpa [runStep] using h1 e
  | ok a => simpa [runStep] using h2 a

/-- Helper: events of a `runStep` come from the logged prefix or from the
continuation. -/
theorem runStep_mem {α : Type} {e : Event} {ev : List Event} {x : PyResult α}
    {onErr : PyExc → PyResult ToolResult}
    {k : α → PyResult ToolResult × List Event}
    (h : e ∈ (runStep ev x onErr k).2) :
    e ∈ ev ∨ ∃ a, e ∈ (k a).2 := by
  cases x with
  | raised e' =>
      simp [runStep] at h
      exact Or.inl h
  | ok a =>
      simp [runStep] at h
      rcases h with h | h
      · exact Or.inl h
      · exact Or.inr ⟨a, h⟩

/-- Helper: `localFinish` logs only the build and sign-and-send events. -/
theorem localFinish_events (env : ChainEnv) (cfg : PoolConfig)
    (opName fn : String) (key : Key) (sender : Addr) (args : List Arg)
    (valueWei : ℤ) (hint : Option String) (nonce : ℤ) (fees : FeeParams) :
    ∀ e ∈ (localFinish env cfg opName fn key sender args valueWei hint nonce fees).2,
      e = Event.txBuild fn args valueWei ∨ e = Event.signAndSend fn := by
  intro e he
  unfold localFinish at he
  rcases runStep_mem he with h | ⟨_, h⟩
  · simp at h
    exact Or.inl h
  · rcases runStep_mem h with h' | ⟨sent, h'⟩
    · simp at h'
      exact Or.inr h'
    · exfalso
      rcases hs : sent.error with _ | m <;> rcases hint with _ | hh <;>
        simp [hs] at h'

/-- Helper: `localFinish` always returns an envelope (both `except` clauses
return `tool_error`). -/
theorem localFinish_fst_ok (env : ChainEnv) (cfg : PoolConfig)
    (opName fn : String) (key : Key) (sender : Addr) (args : List Arg)
    (valueWei : ℤ) (hint : Option String) (nonce : ℤ) (fees : FeeParams) :
    ∃ r, (localFinish env cfg opName fn key sender args valueWei hint nonce fees).1 = .ok r := by
  unfold localFinish
  apply runStep_fst_ok
  · intro e
    exact ⟨_, rfl⟩
  · intro _
    apply runStep_fst_ok
    · intro e
      exact ⟨_, rfl⟩
    · intro sent
      rcases hs : sent.error with _ | m <;> rcases hint with _ | hh <;>
        simp [hs]

/-- Helper: `localSend` logs only fee, nonce, build and sign events. -/
theorem localSend_events (env : ChainEnv) (cfg : PoolConfig)
    (opName fn : String) (key : Key) (sender : Addr) (args : List Arg)
    (valueWei : ℤ) (feesFirst : Bool) (hint : Option String) :
    ∀ e ∈ (localSend env cfg opName fn key sender args valueWei feesFirst hint).2,
      e = Event.feeFetch ∨ e = Event.nonceFetch sender ∨
        e = Event.txBuild fn args valueWei ∨ e = Event.signAndSend fn := by
  intro e he
  unfold localSend at he
  cases feesFirst <;> simp only [if_true, if_false, Bool.false_eq_true, ite_true, ite_false] at he
  · rcases runStep_mem he with h | ⟨nonce, h⟩
    · simp at h
      exact Or.inr (Or.inl h)
    · rcases runStep_mem h with h' | ⟨fees, h'⟩
      · simp at h'
        exact Or.inl h'
      · rcases localFinish_events env cfg opName fn key sender args valueWei hint nonce fees e h' with h'' | h''
        · exact Or.inr (Or.inr (Or.inl h''))
        · exact Or.inr (Or.inr (Or.inr h''))
  · rcases runStep_mem he with h | ⟨fees, h⟩
    · simp at h
      exact Or.inl h
    · rcases runStep_mem h with h' | ⟨nonce, h'⟩
      · simp at h'
        exact Or.inr (Or.inl h')
      · rcases localFinish_events env cfg opName fn key sender args valueWei hint nonce fees e h' with h'' | h''
        · exact Or.inr (Or.inr (Or.inl h''))
        · exact Or.inr (Or.inr (Or.inr h''))

/-- Helper: `localSend` always returns an envelope. -/
theorem localSend_fst_ok (env : ChainEnv) (cfg : PoolConfig)
    (opName fn : String) (key : Key) (sender : Addr) (args : List Arg)
    (valueWei : ℤ) (feesFirst : Bool) (hint : Option String) :
    ∃ r, (localSend env cfg opName fn key sender args valueWei feesFirst hint).1 = .ok r := by
  unfold localSend
  cases feesFirst <;>
    simp only [if_true, if_false, Bool.false_eq_true, ite_true, ite_false] <;>
    refine runStep_fst_ok _ _ _ _ (fun e => ⟨_, rfl⟩) (fun a => ?_) <;>
    refine runStep_fst_ok _ _ _ _ (fun e => ⟨_, rfl⟩) (fun b => ?_) <;>
    apply localFinish_fst_ok

/-- Helper: no MetaMask request appears in a `localSend` trace. -/
theorem localSend_no_mm (env : ChainEnv) (cfg : PoolConfig)
    (opName fn : String) (key : Key) (sender : Addr) (args : List Arg)
    (valueWei : ℤ) (feesFirst : Bool) (hint : Option String) :
    noMM (localSend env cfg opName fn key sender args valueWei feesFirst hint).2 := by
  intro f a v hm
  rcases localSend_events env cfg opName fn key sender args valueWei feesFirst hint _ hm with
    h | h | h | h <;> cases h

/-- Helper: a `mmPath` trace is exactly the MetaMask request event. -/
theorem mmPath_snd (env : ChainEnv) (fn : String) (args : List Arg)
    (valueWei : ℤ) (fromAddr : Addr) (hint : String) :
    (mmPath env fn args valueWei fromAddr hint).2 = [Event.metamaskReq fn args valueWei] := by
  unfold mmPath
  cases env.mmBuild fn args valueWei fromAddr <;> rfl

/-- Helper: `mmPath` always returns an envelope. -/
theorem mmPath_fst_ok (env : ChainEnv) (fn : String) (args : List Arg)
    (valueWei : ℤ) (fromAddr : Addr) (hint : String) :
    ∃ r, (mmPath env fn args valueWei fromAddr hint).1 = .ok r := by
  unfold mmPath
  cases env.mmBuild fn args valueWei fromAddr <;> exact ⟨_, rfl⟩

/-- Helper: `_loan_status` performs only contract reads. -/
theorem loanStatusH_reads (env : ChainEnv) (a : Addr) :
    ∀ e ∈ (loanStatusH env a).2, ∃ s, e = Event.contractRead s := by
  intro e he
  unfold loanStatusH at he
  rcases hfn : env.hasLoanStatusFn <;> simp only [hfn] at he
  · rcases hg : env.getLoanCall a with e1 | ⟨p, o, st, dt, act⟩ <;>
      rw [hg] at he <;> simp at he
    · exact ⟨_, he⟩
    · rcases hb : env.isBannedCall a with e2 | b <;> rw [hb] at he <;> simp at he <;>
        rcases he with h | h <;> exact ⟨_, h⟩
  · rcases hl : env.loanStatusCall a with e1 | st <;> rw [hl] at he <;> simp at he <;>
      exact ⟨_, he⟩

/-- Helper: `_lender_status` performs only contract reads. -/
theorem lenderStatusH_reads (env : ChainEnv) (a : Addr) :
    ∀ e ∈ (lenderStatusH env a).2, ∃ s, e = Event.contractRead s := by
  intro e he
  unfold lenderStatusH at he
  rcases hfn : env.hasLenderStatusFn <;> simp only [hfn] at he
  · rcases h1 : env.totalDepositedCall a with e1 | td <;> rw [h1] at he <;> simp at he
    · exact ⟨_, he⟩
    · rcases h2 : env.totalWithdrawnCall a with e2 | tw <;> rw [h2] at he <;> simp at he
      · rcases he with h | h <;> exact ⟨_, h⟩
      · rcases h3 : env.lenderBalanceCall a with e3 | bal <;> rw [h3] at he <;> simp at he
        · rcases he with h | h | h <;> exact ⟨_, h⟩
        · rcases h4 : env.previewWithdrawCall a with e4 | unl <;> rw [h4] at he <;>
            simp at he <;> rcases he with h | h | h | h <;> exact ⟨_, h⟩
  · rcases hl : env.lenderStatusCall a with e1 | st <;> rw [hl] at he <;> simp at he <;>
      exact ⟨_, he⟩

/-- Helper: `_can_open_loan` performs only contract reads. -/
theorem canOpenLoanH_reads (env : ChainEnv) (cfg : PoolConfig) (a : Addr)
    (principalUnits : ℤ) :
    ∀ e ∈ (canOpenLoanH env cfg a principalUnits).2, ∃ s, e = Event.contractRead s := by
  intro e he
  unfold canOpenLoanH at he
  rcases hfn : env.hasCanOpenLoanFn <;> simp only [hfn] at he
  · rcases hls : loanStatusH env a with ⟨st?, ev1⟩
    rw [hls] at he
    have hev1 : ∀ e' ∈ ev1, ∃ s, e' = Event.contractRead s := by
      intro e' he'
      have h := loanStatusH_reads env a e'
      rw [hls] at h
      exact h he'
    rcases st? with _ | ⟨act, p, o, st, dt, banned⟩
    · simp at he
      exact hev1 e he
    · simp only at he
      by_cases hb : banned = true
      · simp [hb] at he
        exact hev1 e he
      · by_cases hout : act = true ∧ o ≠ 0
        · simp [hb, hout] at he
          exact hev1 e he
        · simp only [hb, hout] at he
          simp only [Bool.false_eq_true, if_false, ite_false] at he
          rcases hal : env.availableLiquidityCall with e1 | avail <;> rw [hal] at he
          · simp at he
            rcases he with h | h
            · exact hev1 e h
            · exact ⟨_, h⟩
          · by_cases hlt : avail < principalUnits <;> simp [hlt] at he <;>
              rcases he with h | h
            · exact hev1 e h
            · exact ⟨_, h⟩
            · exact hev1 e h
            · exact ⟨_, h⟩
  · rcases hc : env.canOpenLoanCall a principalUnits with e1 | r <;> rw [hc] at he <;>
      simp at he <;> exact ⟨_, he⟩

/-- Helper: a non-NaN decimal compares against zero without raising. -/
theorem decLE_zero_ok (d : DecVal) (h : d ≠ DecVal.nan) :
    ∃ b, decLE d (.fin 0) = .ok b := by
  cases d with
  | nan => exact absurd rfl h
  | fin q => exact ⟨_, rfl⟩
  | inf => exact ⟨_, rfl⟩
  | ninf => exact ⟨_, rfl⟩

/-- Helper: a falsy key derives no account (`_acct_for_key`). -/
theorem acctForKey_falsy (env : ChainEnv) (k : Option Key)
    (h : optStrTruthy k = false) : acctForKey env k = none := by
  cases k with
  | none => rfl
  | some s =>
      simp [optStrTruthy, strTruthy] at h
      simp [acctForKey, strTruthy, h]

/-- Helper: an infix of a list is an infix of any right-extension. -/
theorem sublist_extend {α : Type} {n pre : List α} (h : n <:+: pre)
    (rest : List α) : n <:+: pre ++ rest := by
  obtain ⟨u, v, huv⟩ := h
  exact ⟨u, v ++ rest, by rw [← huv]; simp⟩

/-- Helper: the lowercased active-loan refusal reason always contains the
substring `"active loan"`, whatever the rendered amount is. -/
theorem activeLoan_in_reason (s : String) :
    pyContains (strLower ("Borrower has an active loan outstanding (" ++ s ++ " units)"))
      "active loan" = true := by
  unfold pyContains strLower
  rw [decide_eq_true_eq]
  show "active loan".toList <:+:
    (("Borrower has an active loan outstanding (" ++ s ++ " units)").data.map Char.toLower)
  rw [String.data_append, String.data_append, List.map_append, List.map_append]
  apply sublist_extend
  apply sublist_extend
  decide

/-- C3: for every non-negative integer within the asset's representable
range (at most 28 significant digits, within which Python's default decimal
context computes the quotient and product below exactly), converting from
base units to a human decimal amount and back returns exactly the input:
`_to_token_units(_from_token_units(n)) == n`. -/
theorem c3_roundtrip (decimals : ℕ) (n : ℤ) (h0 : 0 ≤ n) (hrange : n < 10 ^ 28) :
    toTokenUnits decimals (.rDec (.fin (fromTokenUnits decimals n))) = .ok n := by
  by_cases hn : n = 0
  · subst hn
    unfold fromTokenUnits toTokenUnits parseDec decTimesIntToInt
    simp
  · unfold fromTokenUnits toTokenUnits parseDec decTimesIntToInt
    simp only [hn, ne_eq, not_false_iff, if_true, ite_true]
    refine congrArg PyResult.ok ?_
    set s : ℤ := (10 : ℤ) ^ decimals with hs
    set q : ℚ := Rat.divInt n s with hqdef
    have hspos : (0 : ℤ) < s := by positivity
    have hsQ : ((s : ℤ) : ℚ) ≠ 0 := by exact_mod_cast hspos.ne'
    have hq : q = (n : ℚ) / (s : ℚ) := by rw [hqdef, Rat.divInt_eq_div]
    have hdenQ : ((q.den : ℚ)) ≠ 0 := by
      exact_mod_cast q.pos.ne'
    have hnum := Rat.num_div_den q
    rw [div_eq_iff hdenQ] at hnum
    have hqs : q * (s : ℚ) = (n : ℚ) := by
      rw [hq]
      field_simp
    have h1 : (q.num : ℚ) * (s : ℚ) = (n : ℚ) * (q.den : ℚ) := by
      rw [hnum, mul_right_comm, hqs]
    have hkey : q.num * s = n * (q.den : ℤ) := by exact_mod_cast h1
    have hden0 : ((q.den : ℤ)) ≠ 0 := by exact_mod_cast q.pos.ne'
    rw [hkey, Int.mul_tdiv_cancel n hden0]

/-- C3 witness: decimals 6, `n = 1_000_000` converts to `"1"` and back. -/
theorem c3_roundtrip_witness :
    ((0 : ℤ) ≤ 1000000 ∧ (1000000 : ℤ) < 10 ^ 28) ∧
    toTokenUnits 6 (.rDec (.fin (fromTokenUnits 6 1000000))) = .ok 1000000 :=
  ⟨⟨by norm_num, by norm_num⟩, c3_roundtrip 6 1000000 (by norm_num) (by norm_num)⟩

/-- C4 (counterexample): `True` is a valid `int` (so a valid `amount`)
whose decimal parse fails (`Decimal("True")` raises), yet `_to_token_units`
returns the truncating integer conversion `int(True) = 1` instead of an
invalid-amount failure; the fallback fires with no caller opt-in, since the
helper has no parameter selecting it. -/
theorem c4_counterexample :
    parseDec (.rBool true) = none ∧ toTokenUnits 6 (.rBool true) = .ok 1 := by
  decide

/-- C4 (amended): the fallback inside `_to_token_units` is unconditional —
whenever the decimal parse fails the helper returns `int(amount)` — but the
tool operations shield it: `deposit_tool` parses the amount first and
returns the distinct invalid-amount failure on parse failure, without ever
reaching the fallback. -/
theorem c4_parse_failure_guarded (env : ChainEnv) (cfg : PoolConfig)
    (raw : RawAmount) (h : parseDec raw = none) :
    depositTool env cfg raw =
      (.ok (.failure "Invalid amount supplied; enter a numeric value."), []) ∧
    toTokenUnits cfg.nativeDecimals raw = pyIntOf raw := by
  constructor
  · unfold depositTool
    rw [h]
  · unfold toTokenUnits
    rw [h]

/-- C4 witness: the amended statement applied to the amount `True`. -/
theorem c4_witness :
    parseDec (.rBool true) = none ∧
    (depositTool envBase cfgNone (.rBool true) =
        (.ok (.failure "Invalid amount supplied; enter a numeric value."), []) ∧
      toTokenUnits cfgNone.nativeDecimals (.rBool true) = pyIntOf (.rBool true)) :=
  ⟨by decide, c4_parse_failure_guarded envBase cfgNone (.rBool true) (by decide)⟩

/-- C5: a withdrawal whose base-unit amount exceeds the reported unlockable
amount is rejected locally: the only logged effect is the lender-status
read — no transaction is built, signed or broadcast, and no MetaMask request
is produced. -/
theorem c5_withdraw_exceeds_unlockable (env : ChainEnv) (cfg : PoolConfig)
    (q : ℚ) (la sa : Addr) (amt td tw bal unlockable : ℤ)
    (hq : ¬ q ≤ 0)
    (hla : lenderAddress env cfg = some la) (hla' : la ≠ "")
    (hcs : env.toChecksum la = some sa)
    (hfn : env.hasLenderStatusFn = true)
    (hst : env.lenderStatusCall sa = .ok (td, tw, bal, unlockable))
    (hamt : toTokenUnits cfg.nativeDecimals (.rDec (.fin q)) = .ok amt)
    (hgt : amt > unlockable) :
    withdrawTool env cfg (.rDec (.fin q)) =
      (.ok (.failure ("Requested withdrawal exceeds unlocked balance (" ++
          decStr (fromTokenUnits cfg.nativeDecimals unlockable) ++ " available).")),
        [Event.contractRead "lenderStatus"]) := by
  unfold withdrawTool lenderStatusH
  simp [parseDec, decLE, decide_eq_false hq, hamt, hla, optStrTruthy, strTruthy,
    hla', hcs, hfn, hst, hgt]

/-- C5 witness: unlockable 50, requested 51 (decimals 0) is rejected with
only the status read logged. -/
theorem c5_witness :
    (¬ (51 : ℚ) ≤ 0 ∧ lenderAddress envUnlock50 cfgLenderAddr = some "0xLender" ∧
      envUnlock50.toChecksum "0xLender" = some "0xLender" ∧
      envUnlock50.hasLenderStatusFn = true ∧
      envUnlock50.lenderStatusCall "0xLender" = .ok (100, 50, 50, 50) ∧
      toTokenUnits cfgLenderAddr.nativeDecimals (.rDec (.fin 51)) = .ok 51 ∧
      (51 : ℤ) > 50) ∧
    withdrawTool envUnlock50 cfgLenderAddr (.rDec (.fin 51)) =
      (.ok (.failure ("Requested withdrawal exceeds unlocked balance (" ++
          decStr (fromTokenUnits cfgLenderAddr.nativeDecimals 50) ++ " available).")),
        [Event.contractRead "lenderStatus"]) :=
  ⟨⟨by norm_num, by decide, by decide, by decide, by decide, by decide, by norm_num⟩,
    c5_withdraw_exceeds_unlockable envUnlock50 cfgLenderAddr 51 "0xLender" "0xLender"
      51 100 50 50 50 (by norm_num) (by decide) (by decide) (by decide) (by decide)
      (by decide) (by decide) (by norm_num)⟩

/-- C6 (counterexample): a borrower whose loan status reads back as
*inactive* with nonzero outstanding balance (10) is not rejected — the local
guard requires `active and outstanding != 0` — so `openLoan_tool` proceeds
to build and broadcast a transaction and returns success. -/
theorem c6_counterexample :
    envInactiveDebt.loanStatusCall "0xB" = .ok (false, 10, 10, 0, 0, false) ∧
    (openLoanTool envInactiveDebt cfgAllKeys "0xB" (.rInt 5) 7).1 =
      .ok (.success (.sent ⟨none, "0xhash", none⟩)) ∧
    Event.txBuild "openLoan" [.addr "0xB", .num 5, .num 7] 0 ∈
      (openLoanTool envInactiveDebt cfgAllKeys "0xB" (.rInt 5) 7).2 := by
  decide

/-- C6 (amended): when the contract lacks a `canOpenLoan` checker and the
borrower's loan status reads back as *active* with nonzero outstanding and
not banned, `openLoan_tool` returns `Failed` with an active-loan-outstanding
reason before any transaction is built: the trace holds exactly the two
status reads, with no build, signing, broadcast or MetaMask request. -/
theorem c6_active_loan_rejected (env : ChainEnv) (cfg : PoolConfig)
    (bRaw : String) (b : Addr) (q : ℚ) (term p outst st dt : ℤ)
    (hcs : env.toChecksum bRaw = some b)
    (hq : ¬ q ≤ 0)
    (hchk : env.hasCanOpenLoanFn = false)
    (hfn : env.hasLoanStatusFn = true)
    (hls : env.loanStatusCall b = .ok (true, p, outst, st, dt, false))
    (hout : outst ≠ 0) :
    openLoanTool env cfg bRaw (.rDec (.fin q)) term =
      (.ok (.failure ("Cannot open loan: borrower has an active loan outstanding (" ++
          decStr (fromTokenUnits cfg.nativeDecimals outst) ++ " native units).")),
        [Event.contractRead "loanStatus", Event.contractRead "loanStatus"]) := by
  unfold openLoanTool canOpenLoanH loanStatusH
  simp [toTokenUnits, parseDec, decTimesIntToInt, decLE, hcs, hchk, hfn, hls,
    hout, decide_eq_false hq, activeLoan_in_reason]

/-- C6 witness: outstanding 10, principal 5 is rejected with the active-loan
reason and only the two status reads logged. -/
theorem c6_active_loan_witness :
    (envActiveDebt.toChecksum "0xB" = some "0xB" ∧ ¬ (5 : ℚ) ≤ 0 ∧
      envActiveDebt.hasCanOpenLoanFn = false ∧
      envActiveDebt.hasLoanStatusFn = true ∧
      envActiveDebt.loanStatusCall "0xB" = .ok (true, 10, 10, 0, 0, false) ∧
      (10 : ℤ) ≠ 0) ∧
    openLoanTool envActiveDebt cfgNone "0xB" (.rDec (.fin 5)) 7 =
      (.ok (.failure ("Cannot open loan: borrower has an active loan outstanding (" ++
          decStr (fromTokenUnits cfgNone.nativeDecimals 10) ++ " native units).")),
        [Event.contractRead "loanStatus", Event.contractRead "loanStatus"]) :=
  ⟨⟨by decide, by decide, by decide, by decide, by decide, by decide⟩,
    c6_active_loan_rejected envActiveDebt cfgNone "0xB" "0xB" 5 7 10 10 0 0
      (by decide) (by decide) (by decide) (by decide) (by decide) (by decide)⟩

/-- C7: when neither a private key nor a delegated address is configured for
the required role, `checkDefaultAndBan` and `repay` fail with a
signer-unavailable message and the event trace is empty: no nonce fetch, no
fee fetch, no broadcast and no contract read. -/
theorem c7_signer_unavailable_zero_network (env : ChainEnv) (cfg : PoolConfig)
    (bRaw : String)
    (hOk : optStrTruthy (ownerKey cfg) = false)
    (hOa : cfg.roleAddresses "Owner" = none)
    (hBk : optStrTruthy (borrowerKey cfg) = false)
    (hBa : cfg.roleAddresses "Borrower" = none) :
    ((checkDefaultAndBanTool env cfg bRaw).2 = [] ∧
      ∃ m, (checkDefaultAndBanTool env cfg bRaw).1 = .ok (.failure m)) ∧
    ((repayTool env cfg).2 = [] ∧
      ∃ m, (repayTool env cfg).1 = .ok (.failure m)) := by
  have hOacct : acctForKey env (ownerKey cfg) = none := acctForKey_falsy env _ hOk
  have hBacct : acctForKey env (borrowerKey cfg) = none := acctForKey_falsy env _ hBk
  have hOaddr : ownerAddress env cfg = none := by
    unfold ownerAddress
    rw [hOa, hOacct]
    rfl
  have hBaddr : borrowerAddress env cfg = none := by
    unfold borrowerAddress
    rw [hBa, hBacct]
    rfl
  constructor
  · unfold checkDefaultAndBanTool
    rcases hc : env.toChecksum bRaw with _ | b <;>
      simp [hc, hOacct, hOk, hOaddr, optStrTruthy]
  · unfold repayTool
    simp [hBaddr, hBacct, pyOrStr, optStrTruthy]

/-- C7 witness: no keys and no role addresses configured at all. -/
theorem c7_witness :
    (optStrTruthy (ownerKey cfgNone) = false ∧
      cfgNone.roleAddresses "Owner" = none ∧
      optStrTruthy (borrowerKey cfgNone) = false ∧
      cfgNone.roleAddresses "Borrower" = none) ∧
    (((checkDefaultAndBanTool envBase cfgNone "0xB").2 = [] ∧
        ∃ m, (checkDefaultAndBanTool envBase cfgNone "0xB").1 = .ok (.failure m)) ∧
      ((repayTool envBase cfgNone).2 = [] ∧
        ∃ m, (repayTool envBase cfgNone).1 = .ok (.failure m))) :=
  ⟨⟨by decide, by decide, by decide, by decide⟩,
    c7_signer_unavailable_zero_network envBase cfgNone "0xB"
      (by decide) (by decide) (by decide) (by decide)⟩

/-- Helper: a three-way branch over two Boolean conditions returns an
envelope when all three branches do. -/
theorem branch3_fst_ok (c1 c2 : Bool) (x y z : PyResult ToolResult × List Event)
    (hx : ∃ r, x.1 = .ok r) (hy : ∃ r, y.1 = .ok r) (hz : ∃ r, z.1 = .ok r) :
    ∃ r, (if c1 then x else if c2 then y else z).1 = .ok r := by
  cases c1
  · cases c2
    · exact hz
    · exact hy
  · exact hx

/-- Helper: the withdraw path selection always returns an envelope. -/
theorem withdrawPaths_fst_ok (env : ChainEnv) (cfg : PoolConfig) (amt : ℤ)
    (ev1 : List Event) : ∃ r, (withdrawPaths env cfg amt ev1).1 = .ok r := by
  unfold withdrawPaths
  apply branch3_fst_ok
  · exact localSend_fst_ok env cfg "withdraw" "withdraw" ((lenderKey cfg).getD "")
      ((acctForKey env (lenderKey cfg)).getD "") [.num amt] 0 false none
  · exact mmPath_fst_ok env "withdraw" [.num amt] 0 ((lenderAddress env cfg).getD "")
      "Use MetaMask (lender wallet) to withdraw unlocked funds."
  · exact ⟨_, rfl⟩

/-- Helper: `deposit_tool` returns an envelope for every non-NaN amount. -/
theorem depositTool_ok (env : ChainEnv) (cfg : PoolConfig) (amount : RawAmount)
    (hA : parseDec amount ≠ some .nan) :
    ∃ r, (depositTool env cfg amount).1 = .ok r := by
  unfold depositTool
  rcases hp : parseDec amount with _ | d
  · exact ⟨_, rfl⟩
  · have hd : d ≠ .nan := fun h => hA (h ▸ hp)
    obtain ⟨b, hb⟩ := decLE_zero_ok d hd
    dsimp only
    rw [hb]
    cases b
    · rcases ht : toTokenUnits cfg.nativeDecimals (.rDec d) with e | amt
      · exact ⟨_, rfl⟩
      · apply branch3_fst_ok
        · exact localSend_fst_ok env cfg "deposit" "deposit" ((lenderKey cfg).getD "")
            ((acctForKey env (lenderKey cfg)).getD "") [.num amt] amt false none
        · exact mmPath_fst_ok env "deposit" [.num amt] amt
            ((lenderAddress env cfg).getD "")
            "Use MetaMask (lender wallet) to deposit native USDC into the pool."
        · exact ⟨_, rfl⟩
    · exact ⟨_, rfl⟩

/-- Helper: `withdraw_tool` returns an envelope for every non-NaN amount. -/
theorem withdrawTool_ok (env : ChainEnv) (cfg : PoolConfig) (amount : RawAmount)
    (hA : parseDec amount ≠ some .nan) :
    ∃ r, (withdrawTool env cfg amount).1 = .ok r := by
  unfold withdrawTool
  rcases hp : parseDec amount with _ | d
  · exact ⟨_, rfl⟩
  · have hd : d ≠ .nan := fun h => hA (h ▸ hp)
    obtain ⟨b, hb⟩ := decLE_zero_ok d hd
    dsimp only
    rw [hb]
    cases b
    · dsimp only
      rcases ht : toTokenUnits cfg.nativeDecimals (.rDec d) with e | amt
      · exact ⟨_, rfl⟩
      · dsimp only
        split
        · exact withdrawPaths_fst_ok env cfg amt []
        · split
          · exact withdrawPaths_fst_ok env cfg amt _
          · split
            · exact ⟨_, rfl⟩
            · exact withdrawPaths_fst_ok env cfg amt _
    · exact ⟨_, rfl⟩

/-- Helper: `openLoan_tool` returns an envelope for every non-NaN principal. -/
theorem openLoanTool_ok (env : ChainEnv) (cfg : PoolConfig) (bRaw : String)
    (principal : RawAmount) (term : ℤ) (hP : parseDec principal ≠ some .nan) :
    ∃ r, (openLoanTool env cfg bRaw principal term).1 = .ok r := by
  unfold openLoanTool
  rcases hc : env.toChecksum bRaw with _ | b
  · exact ⟨_, rfl⟩
  · rcases hp : parseDec principal with _ | d
    · exact ⟨_, rfl⟩
    · have hd : d ≠ .nan := fun h => hP (h ▸ hp)
      obtain ⟨bb, hb⟩ := decLE_zero_ok d hd
      dsimp only
      rw [hb]
      cases bb
      · rcases ht : toTokenUnits cfg.nativeDecimals (.rDec d) with e | pu
        · exact ⟨_, rfl⟩
        · dsimp only
          rcases hco : canOpenLoanH env cfg b pu with ⟨⟨ok, reason⟩, ev1⟩
          dsimp only
          split
          · split
            · split
              · exact ⟨_, rfl⟩
              · exact ⟨_, rfl⟩
            · exact ⟨_, rfl⟩
          · apply branch3_fst_ok
            · exact localSend_fst_ok env cfg "openLoan" "openLoan"
                ((ownerKey cfg).getD "") ((acctForKey env (ownerKey cfg)).getD "")
                [.addr b, .num pu, .num term] 0 true none
            · exact mmPath_fst_ok env "openLoan" [.addr b, .num pu, .num term] 0
                ((ownerAddress env cfg).getD "")
                "Use MetaMask (owner wallet) to open a loan."
            · exact ⟨_, rfl⟩
      · exact ⟨_, rfl⟩

/-- Helper: `repay_tool` always returns an envelope. -/
theorem repayTool_ok (env : ChainEnv) (cfg : PoolConfig) :
    ∃ r, (repayTool env cfg).1 = .ok r := by
  unfold repayTool
  dsimp only
  split
  · exact ⟨_, rfl⟩
  · split
    · exact ⟨_, rfl⟩
    · split
      · exact ⟨_, rfl⟩
      · split
        · exact ⟨_, rfl⟩
        · split
          · exact ⟨_, rfl⟩
          · apply branch3_fst_ok
            · exact localSend_fst_ok env cfg "repay" "repay"
                ((borrowerKey cfg).getD "") ((acctForKey env (borrowerKey cfg)).getD "")
                _ _ false _
            · exact mmPath_fst_ok env "repay" _ _ ((borrowerAddress env cfg).getD "") _
            · exact ⟨_, rfl⟩

/-- Helper: `checkDefaultAndBan_tool` always returns an envelope. -/
theorem checkDefaultAndBanTool_ok (env : ChainEnv) (cfg : PoolConfig)
    (bRaw : String) : ∃ r, (checkDefaultAndBanTool env cfg bRaw).1 = .ok r := by
  unfold checkDefaultAndBanTool
  dsimp only
  split
  · exact ⟨_, rfl⟩
  · apply branch3_fst_ok
    · exact localSend_fst_ok env cfg "checkDefaultAndBan" "checkDefaultAndBan"
        ((ownerKey cfg).getD "") ((acctForKey env (ownerKey cfg)).getD "") _ 0 true none
    · exact mmPath_fst_ok env "checkDefaultAndBan" _ 0 ((ownerAddress env cfg).getD "") _
    · exact ⟨_, rfl⟩

/-- Helper: `setDepositLockSeconds_tool` always returns an envelope. -/
theorem setDepositLockSecondsTool_ok (env : ChainEnv) (cfg : PoolConfig)
    (seconds : ℤ) : ∃ r, (setDepositLockSecondsTool env cfg seconds).1 = .ok r := by
  unfold setDepositLockSecondsTool
  dsimp only
  apply branch3_fst_ok
  · exact localSend_fst_ok env cfg "setDepositLockSeconds" "setDepositLockSeconds"
      ((ownerKey cfg).getD "") ((acctForKey env (ownerKey cfg)).getD "") _ 0 false none
  · exact mmPath_fst_ok env "setDepositLockSeconds" _ 0 ((ownerAddress env cfg).getD "") _
  · exact ⟨_, rfl⟩

/-- Helper: `setTrustMintSbt_tool` always returns an envelope. -/
theorem setTrustMintSbtTool_ok (env : ChainEnv) (cfg : PoolConfig)
    (sbtAddr : String) : ∃ r, (setTrustMintSbtTool env cfg sbtAddr).1 = .ok r := by
  unfold setTrustMintSbtTool
  dsimp only
  split
  · exact ⟨_, rfl⟩
  · apply branch3_fst_ok
    · exact localSend_fst_ok env cfg "setTrustMintSbt" "setTrustMintSbt"
        ((ownerKey cfg).getD "") ((acctForKey env (ownerKey cfg)).getD "") _ 0 false none
    · exact mmPath_fst_ok env "setTrustMintSbt" _ 0 ((ownerAddress env cfg).getD "") _
    · exact ⟨_, rfl⟩

/-- Helper: `setMinScoreToBorrow_tool` always returns an envelope. -/
theorem setMinScoreToBorrowTool_ok (env : ChainEnv) (cfg : PoolConfig)
    (score : ℤ) : ∃ r, (setMinScoreToBorrowTool env cfg score).1 = .ok r := by
  unfold setMinScoreToBorrowTool
  dsimp only
  apply branch3_fst_ok
  · exact localSend_fst_ok env cfg "setMinScoreToBorrow" "setMinScoreToBorrow"
      ((ownerKey cfg).getD "") ((acctForKey env (ownerKey cfg)).getD "") _ 0 false none
  · exact mmPath_fst_ok env "setMinScoreToBorrow" _ 0 ((ownerAddress env cfg).getD "") _
  · exact ⟨_, rfl⟩

/-- Helper: `unban_tool` always returns an envelope. -/
theorem unbanTool_ok (env : ChainEnv) (cfg : PoolConfig) (bRaw : String) :
    ∃ r, (unbanTool env cfg bRaw).1 = .ok r := by
  unfold unbanTool
  dsimp only
  split
  · exact ⟨_, rfl⟩
  · apply branch3_fst_ok
    · exact localSend_fst_ok env cfg "unban" "unban"
        ((ownerKey cfg).getD "") ((acctForKey env (ownerKey cfg)).getD "") _ 0 false none
    · exact mmPath_fst_ok env "unban" _ 0 ((ownerAddress env cfg).getD "") _
    · exact ⟨_, rfl⟩

/-- Helper: the read-only views always return an envelope. -/
theorem viewTools_ok (env : ChainEnv) (cfg : PoolConfig) (lRaw bRaw : String) :
    (∃ r, (availableLiquidityTool env).1 = .ok r) ∧
    (∃ r, (lenderBalanceTool env lRaw).1 = .ok r) ∧
    (∃ r, (lenderStatusTool env cfg lRaw).1 = .ok r) ∧
    (∃ r, (getLoanTool env cfg bRaw).1 = .ok r) ∧
    (∃ r, (isBannedTool env bRaw).1 = .ok r) := by
  refine ⟨?_, ?_, ?_, ?_, ?_⟩
  · unfold availableLiquidityTool
    split <;> exact ⟨_, rfl⟩
  · unfold lenderBalanceTool
    split
    · exact ⟨_, rfl⟩
    · split <;> exact ⟨_, rfl⟩
  · unfold lenderStatusTool
    split
    · exact ⟨_, rfl⟩
    · split <;> exact ⟨_, rfl⟩
  · unfold getLoanTool
    split
    · exact ⟨_, rfl⟩
    · split <;> exact ⟨_, rfl⟩
  · unfold isBannedTool
    split
    · exact ⟨_, rfl⟩
    · split <;> exact ⟨_, rfl⟩

/-- C8 (counterexample): `deposit` with a NaN amount raises
`InvalidOperation` out of the handler — the positivity comparison
`amt_decimal <= Decimal("0")` is outside the `try` — so the handler does not
return a uniform result string; the exception is caught only at the
tool-runner dispatch, which reports it as an execution failure rather than a
failure envelope. -/
theorem c8_counterexample :
    depositTool envBase cfgNone .rFloatNan = (.raised .invalidOperation, []) ∧
    runToolBoundary (depositTool envBase cfgNone .rFloatNan).1 =
      .executionFailed ("Tool execution failed: " ++ excStr .invalidOperation) := by
  decide

/-- C8 (amended): every registered tool handler returns a uniform result
envelope for every input, except that an amount or principal whose decimal
parse yields NaN makes `deposit`, `withdraw` or `openLoan` raise out of the
handler; any exception that escapes a handler is caught at the tool-runner
dispatch boundary and reported there (as a parameter-mismatch or
execution-failure message, not an envelope), so nothing propagates past
that boundary. -/
theorem c8_handlers_total (env : ChainEnv) (cfg : PoolConfig)
    (amount principal : RawAmount) (bRaw sRaw lRaw : String)
    (term seconds score : ℤ)
    (hA : parseDec amount ≠ some .nan) (hP : parseDec principal ≠ some .nan) :
    (∃ r, (depositTool env cfg amount).1 = .ok r) ∧
    (∃ r, (withdrawTool env cfg amount).1 = .ok r) ∧
    (∃ r, (openLoanTool env cfg bRaw principal term).1 = .ok r) ∧
    (∃ r, (repayTool env cfg).1 = .ok r) ∧
    (∃ r, (checkDefaultAndBanTool env cfg bRaw).1 = .ok r) ∧
    (∃ r, (setDepositLockSecondsTool env cfg seconds).1 = .ok r) ∧
    (∃ r, (setTrustMintSbtTool env cfg sRaw).1 = .ok r) ∧
    (∃ r, (setMinScoreToBorrowTool env cfg score).1 = .ok r) ∧
    (∃ r, (unbanTool env cfg bRaw).1 = .ok r) ∧
    (∃ r, (availableLiquidityTool env).1 = .ok r) ∧
    (∃ r, (lenderBalanceTool env lRaw).1 = .ok r) ∧
    (∃ r, (lenderStatusTool env cfg lRaw).1 = .ok r) ∧
    (∃ r, (getLoanTool env cfg bRaw).1 = .ok r) ∧
    (∃ r, (isBannedTool env bRaw).1 = .ok r) ∧
    (∀ (e : PyExc) (res : ToolResult), runToolBoundary (.raised e) ≠ .completed res) := by
  obtain ⟨hv1, hv2, hv3, hv4, hv5⟩ := viewTools_ok env cfg lRaw bRaw
  refine ⟨depositTool_ok env cfg amount hA, withdrawTool_ok env cfg amount hA,
    openLoanTool_ok env cfg bRaw principal term hP, repayTool_ok env cfg,
    checkDefaultAndBanTool_ok env cfg bRaw, setDepositLockSecondsTool_ok env cfg seconds,
    setTrustMintSbtTool_ok env cfg sRaw, setMinScoreToBorrowTool_ok env cfg score,
    unbanTool_ok env cfg bRaw, hv1, hv2, hv3, hv4, hv5, ?_⟩
  intro e res h
  cases e <;> simp [runToolBoundary] at h

/-- C8 witness: the amended statement applied at concrete inputs. -/
theorem c8_witness :
    (parseDec (.rInt 5) ≠ some .nan ∧ parseDec (.rInt 7) ≠ some .nan) ∧
    ((∃ r, (depositTool envBase cfgNone (.rInt 5)).1 = .ok r) ∧
      (∃ r, (withdrawTool envBase cfgNone (.rInt 5)).1 = .ok r) ∧
      (∃ r, (openLoanTool envBase cfgNone "0xB" (.rInt 7) 60).1 = .ok r) ∧
      (∃ r, (repayTool envBase cfgNone).1 = .ok r) ∧
      (∃ r, (checkDefaultAndBanTool envBase cfgNone "0xB").1 = .ok r) ∧
      (∃ r, (setDepositLockSecondsTool envBase cfgNone 60).1 = .ok r) ∧
      (∃ r, (setTrustMintSbtTool envBase cfgNone "0xS").1 = .ok r) ∧
      (∃ r, (setMinScoreToBorrowTool envBase cfgNone 3).1 = .ok r) ∧
      (∃ r, (unbanTool envBase cfgNone "0xB").1 = .ok r) ∧
      (∃ r, (availableLiquidityTool envBase).1 = .ok r) ∧
      (∃ r, (lenderBalanceTool envBase "0xL").1 = .ok r) ∧
      (∃ r, (lenderStatusTool envBase cfgNone "0xL").1 = .ok r) ∧
      (∃ r, (getLoanTool envBase cfgNone "0xB").1 = .ok r) ∧
      (∃ r, (isBannedTool envBase "0xB").1 = .ok r) ∧
      (∀ (e : PyExc) (res : ToolResult), runToolBoundary (.raised e) ≠ .completed res)) :=
  ⟨⟨by decide, by decide⟩,
    c8_handlers_total envBase cfgNone (.rInt 5) (.rInt 7) "0xB" "0xS" "0xL" 60 60 3
      (by decide) (by decide)⟩

/-- Helper: the empty trace holds no MetaMask request. -/
theorem noMM_nil : noMM [] := by
  intro f a v hm
  simp at hm

/-- Helper: traces of contract reads hold no MetaMask request. -/
theorem noMM_of_reads {evs : List Event}
    (h : ∀ e ∈ evs, ∃ s, e = Event.contractRead s) : noMM evs := by
  intro f a v hm
  rcases h _ hm with ⟨s, hs⟩
  simp at hs

/-- Helper: `noMM` is preserved by trace concatenation. -/
theorem noMM_append {l1 l2 : List Event} (h1 : noMM l1) (h2 : noMM l2) :
    noMM (l1 ++ l2) := by
  intro f a v hm
  rcases List.mem_append.mp hm with h | h
  · exact h1 f a v h
  · exact h2 f a v h

/-- Helper: with a usable lender key, the withdraw path selection takes the
local path, so its trace holds no MetaMask request. -/
theorem withdrawPaths_noMM (env : ChainEnv) (cfg : PoolConfig) (amt : ℤ)
    (ev1 : List Event)
    (h1 : optStrTruthy (lenderKey cfg) = true)
    (h2 : optStrTruthy (acctForKey env (lenderKey cfg)) = true)
    (hev : noMM ev1) : noMM (withdrawPaths env cfg amt ev1).2 := by
  intro f a v hm
  unfold withdrawPaths at hm
  dsimp only at hm
  rw [h2, h1] at hm
  simp only [Bool.and_self, if_true] at hm
  rcases List.mem_append.mp hm with h | h
  · exact hev f a v h
  · exact localSend_no_mm env cfg "withdraw" "withdraw" _ _ _ 0 false none f a v h

/-- C9: whenever a usable local private key is configured for the
operation's role, every write operation signs locally — its trace holds no
MetaMask request, even if a delegated address is also configured — so the
delegated path can only be taken when the local key is absent or unusable. -/
theorem c9_local_key_precedence (env : ChainEnv) (cfg : PoolConfig)
    (amount principal : RawAmount) (bRaw sRaw : String)
    (term seconds score : ℤ)
    (hL : optStrTruthy (lenderKey cfg) = true)
    (hLa : optStrTruthy (acctForKey env (lenderKey cfg)) = true)
    (hO : optStrTruthy (ownerKey cfg) = true)
    (hOa : optStrTruthy (acctForKey env (ownerKey cfg)) = true)
    (hB : optStrTruthy (borrowerKey cfg) = true)
    (hBa : optStrTruthy (acctForKey env (borrowerKey cfg)) = true) :
    noMM (depositTool env cfg amount).2 ∧
    noMM (withdrawTool env cfg amount).2 ∧
    noMM (openLoanTool env cfg bRaw principal term).2 ∧
    noMM (repayTool env cfg).2 ∧
    noMM (checkDefaultAndBanTool env cfg bRaw).2 ∧
    noMM (setDepositLockSecondsTool env cfg seconds).2 ∧
    noMM (setTrustMintSbtTool env cfg sRaw).2 ∧
    noMM (setMinScoreToBorrowTool env cfg score).2 ∧
    noMM (unbanTool env cfg bRaw).2 := by
  refine ⟨?_, ?_, ?_, ?_, ?_, ?_, ?_, ?_, ?_⟩
  · -- deposit
    intro f a v hm
    unfold depositTool at hm
    rcases hp : parseDec amount with _ | d <;> rw [hp] at hm
    · simp at hm
    · dsimp only at hm
      rcases hd : decLE d (.fin 0) with e | b <;> rw [hd] at hm
      · simp at hm
      · cases b
        · dsimp only at hm
          rcases ht : toTokenUnits cfg.nativeDecimals (.rDec d) with e | amt <;>
            rw [ht] at hm
          · simp at hm
          · dsimp only at hm
            rw [hLa, hL] at hm
            simp only [Bool.and_self, if_true] at hm
            exact localSend_no_mm env cfg "deposit" "deposit" _ _ _ amt false none f a v hm
        · simp at hm
  · -- withdraw
    intro f a v hm
    unfold withdrawTool at hm
    rcases hp : parseDec amount with _ | d <;> rw [hp] at hm
    · simp at hm
    · dsimp only at hm
      rcases hd : decLE d (.fin 0) with e | b <;> rw [hd] at hm
      · simp at hm
      · cases b
        · dsimp only at hm
          rcases ht : toTokenUnits cfg.nativeDecimals (.rDec d) with e | amt <;>
            rw [ht] at hm
          · simp at hm
          · dsimp only at hm
            split at hm
            · exact withdrawPaths_noMM env cfg amt [] hL hLa noMM_nil f a v hm
            · rename_i sa heqsa
              split at hm
              · rename_i ev1 heq
                refine withdrawPaths_noMM env cfg amt ev1 hL hLa ?_ f a v hm
                apply noMM_of_reads
                intro e' he'
                have h := lenderStatusH_reads env sa e'
                rw [heq] at h
                exact h he'
              · rename_i ev1 heq
                have hev1 : noMM ev1 := by
                  apply noMM_of_reads
                  intro e' he'
                  have h := lenderStatusH_reads env sa e'
                  rw [heq] at h
                  exact h he'
                split at hm
                · exact hev1 f a v hm
                · exact withdrawPaths_noMM env cfg amt ev1 hL hLa hev1 f a v hm
        · simp at hm
  · -- openLoan
    intro f a v hm
    unfold openLoanTool at hm
    rcases hc : env.toChecksum bRaw with _ | b <;> rw [hc] at hm
    · simp at hm
    · dsimp only at hm
      rcases hp : parseDec principal with _ | d <;> rw [hp] at hm
      · simp at hm
      · dsimp only at hm
        rcases hd : decLE d (.fin 0) with e | bb <;> rw [hd] at hm
        · simp at hm
        · cases bb
          · dsimp only at hm
            rcases ht : toTokenUnits cfg.nativeDecimals (.rDec d) with e | pu <;>
              rw [ht] at hm
            · simp at hm
            · dsimp only at hm
              rcases hres : canOpenLoanH env cfg b pu with ⟨⟨ok, reason⟩, ev1⟩
              rw [hres] at hm
              dsimp only at hm
              have hev1 : noMM ev1 := by
                apply noMM_of_reads
                intro e' he'
                have h := canOpenLoanH_reads env cfg b pu e'
                rw [hres] at h
                exact h he'
              split at hm
              · -- refusal branch
                split at hm
                · split at hm
                  · rename_i ev2 heq2
                    refine noMM_append hev1 ?_ f a v hm
                    apply noMM_of_reads
                    intro e' he'
                    have h := loanStatusH_reads env b e'
                    rw [heq2] at h
                    exact h he'
                  · rename_i ev2 heq2
                    refine noMM_append hev1 ?_ f a v hm
                    apply noMM_of_reads
                    intro e' he'
                    have h := loanStatusH_reads env b e'
                    rw [heq2] at h
                    exact h he'
                · exact hev1 f a v hm
              · -- accepted branch
                rw [hOa, hO] at hm
                simp only [Bool.and_self, if_true] at hm
                rcases List.mem_append.mp hm with h | h
                · exact hev1 f a v h
                · exact localSend_no_mm env cfg "openLoan" "openLoan" _ _ _ 0 true none f a v h
          · simp at hm
  · -- repay
    intro f a v hm
    unfold repayTool at hm
    dsimp only at hm
    split at hm
    · simp at hm
    · split at hm
      · simp at hm
      · rename_i borrower heq0
        split at hm
        · rename_i ev1 heq
          refine noMM_of_reads ?_ f a v hm
          intro e' he'
          have h := loanStatusH_reads env borrower e'
          rw [heq] at h
          exact h he'
        · rename_i ev1 heq
          have hev1 : noMM ev1 := by
            apply noMM_of_reads
            intro e' he'
            have h := loanStatusH_reads env borrower e'
            rw [heq] at h
            exact h he'
          split at hm
          · exact hev1 f a v hm
          · split at hm
            · exact hev1 f a v hm
            · rw [hBa, hB] at hm
              simp only [Bool.and_self, if_true] at hm
              rcases List.mem_append.mp hm with h | h
              · exact hev1 f a v h
              · exact localSend_no_mm env cfg "repay" "repay" _ _ _ _ false _ f a v h
  · -- checkDefaultAndBan
    intro f a v hm
    unfold checkDefaultAndBanTool at hm
    dsimp only at hm
    split at hm
    · simp at hm
    · rw [hOa, hO] at hm
      simp only [Bool.and_self, if_true] at hm
      exact localSend_no_mm env cfg "checkDefaultAndBan" "checkDefaultAndBan" _ _ _ 0 true none f a v hm
  · -- setDepositLockSeconds
    intro f a v hm
    unfold setDepositLockSecondsTool at hm
    dsimp only at hm
    rw [hOa, hO] at hm
    simp only [Bool.and_self, if_true] at hm
    exact localSend_no_mm env cfg "setDepositLockSeconds" "setDepositLockSeconds" _ _ _ 0 false none f a v hm
  · -- setTrustMintSbt
    intro f a v hm
    unfold setTrustMintSbtTool at hm
    dsimp only at hm
    split at hm
    · simp at hm
    · rw [hOa, hO] at hm
      simp only [Bool.and_self, if_true] at hm
      exact localSend_no_mm env cfg "setTrustMintSbt" "setTrustMintSbt" _ _ _ 0 false none f a v hm
  · -- setMinScoreToBorrow
    intro f a v hm
    unfold setMinScoreToBorrowTool at hm
    dsimp only at hm
    rw [hOa, hO] at hm
    simp only [Bool.and_self, if_true] at hm
    exact localSend_no_mm env cfg "setMinScoreToBorrow" "setMinScoreToBorrow" _ _ _ 0 false none f a v hm
  · -- unban
    intro f a v hm
    unfold unbanTool at hm
    dsimp only at hm
    split at hm
    · simp at hm
    · rw [hOa, hO] at hm
      simp only [Bool.and_self, if_true] at hm
      exact localSend_no_mm env cfg "unban" "unban" _ _ _ 0 false none f a v hm

/-- C9 witness: keys configured for every role, derivable accounts. -/
theorem c9_witness :
    (optStrTruthy (lenderKey cfgAllKeys) = true ∧
      optStrTruthy (acctForKey envBase (lenderKey cfgAllKeys)) = true ∧
      optStrTruthy (ownerKey cfgAllKeys) = true ∧
      optStrTruthy (acctForKey envBase (ownerKey cfgAllKeys)) = true ∧
      optStrTruthy (borrowerKey cfgAllKeys) = true ∧
      optStrTruthy (acctForKey envBase (borrowerKey cfgAllKeys)) = true) ∧
    (noMM (depositTool envBase cfgAllKeys (.rInt 5)).2 ∧
      noMM (withdrawTool envBase cfgAllKeys (.rInt 5)).2 ∧
      noMM (openLoanTool envBase cfgAllKeys "0xB" (.rInt 7) 60).2 ∧
      noMM (repayTool envBase cfgAllKeys).2 ∧
      noMM (checkDefaultAndBanTool envBase cfgAllKeys "0xB").2 ∧
      noMM (setDepositLockSecondsTool envBase cfgAllKeys 60).2 ∧
      noMM (setTrustMintSbtTool envBase cfgAllKeys "0xS").2 ∧
      noMM (setMinScoreToBorrowTool envBase cfgAllKeys 3).2 ∧
      noMM (unbanTool envBase cfgAllKeys "0xB").2) :=
  ⟨⟨by decide, by decide, by decide, by decide, by decide, by decide⟩,
    c9_local_key_precedence envBase cfgAllKeys (.rInt 5) (.rInt 7) "0xB" "0xS" 60 60 3
      (by decide) (by decide) (by decide) (by decide) (by decide) (by decide)⟩

/-- C10: with a readable loan status, `repay` is a full payoff: when the
borrower is banned, or the loan is inactive or fully paid, it fails with
only the status read logged (no transaction is built); otherwise every
transaction build and every MetaMask request in the trace calls `repay` with
the full outstanding amount as the single argument and attaches exactly
that amount as native value. -/
theorem c10_repay_full_outstanding (env : ChainEnv) (cfg : PoolConfig)
    (a0 b : Addr) (active : Bool) (p outst st dt : ℤ) (banned : Bool)
    (hb0 : pyOrStr (borrowerAddress env cfg) (acctForKey env (borrowerKey cfg)) = some a0)
    (ha0 : a0 ≠ "")
    (hcs : env.toChecksum a0 = some b)
    (hfn : env.hasLoanStatusFn = true)
    (hls : env.loanStatusCall b = .ok (active, p, outst, st, dt, banned)) :
    (banned = true →
      repayTool env cfg =
        (.ok (.failure "Borrower is banned; repay unavailable until unbanned."),
          [Event.contractRead "loanStatus"])) ∧
    (banned = false → (active = false ∨ outst = 0) →
      repayTool env cfg =
        (.ok (.failure "No active loan to repay."), [Event.contractRead "loanStatus"])) ∧
    (banned = false → active = true → outst ≠ 0 →
      (∀ f args v, Event.txBuild f args v ∈ (repayTool env cfg).2 →
        f = "repay" ∧ args = [Arg.num outst] ∧ v = outst) ∧
      (∀ f args v, Event.metamaskReq f args v ∈ (repayTool env cfg).2 →
        f = "repay" ∧ args = [Arg.num outst] ∧ v = outst)) := by
  refine ⟨?_, ?_, ?_⟩
  · intro hb
    subst hb
    unfold repayTool loanStatusH
    simp [hb0, optStrTruthy, strTruthy, ha0, hcs, hfn, hls]
  · intro hb hio
    subst hb
    rcases hio with h | h <;> subst h <;>
      · unfold repayTool loanStatusH
        simp [hb0, optStrTruthy, strTruthy, ha0, hcs, hfn, hls]
  · intro hb ha hout
    subst hb
    subst ha
    constructor <;> intro f args v hmem <;>
      unfold repayTool loanStatusH at hmem <;>
      simp [hb0, optStrTruthy, strTruthy, ha0, hcs, hfn, hls, hout] at hmem
    · -- txBuild events
      split at hmem
      · simp at hmem
        rcases localSend_events env cfg "repay" "repay" _ _ _ _ false _ _ hmem with
          h' | h' | h' | h'
        · simp at h'
        · simp at h'
        · simpa using h'
        · simp at h'
      · split at hmem
        · simp [mmPath_snd] at hmem
        · simp at hmem
    · -- metamaskReq events
      split at hmem
      · simp at hmem
        exact absurd hmem (localSend_no_mm env cfg "repay" "repay" _ _ _ _ false _ f args v)
      · split at hmem
        · simp [mmPath_snd] at hmem
          simpa using hmem
        · simp at hmem

/-- C10 witness: active loan with outstanding 10 and a usable borrower key:
the full-payoff clause applies at outstanding 10. -/
theorem c10_repay_witness :
    (pyOrStr (borrowerAddress envActiveDebt cfgAllKeys)
        (acctForKey envActiveDebt (borrowerKey cfgAllKeys)) = some "0xDerived" ∧
      "0xDerived" ≠ "" ∧
      envActiveDebt.toChecksum "0xDerived" = some "0xDerived" ∧
      envActiveDebt.hasLoanStatusFn = true ∧
      envActiveDebt.loanStatusCall "0xDerived" = .ok (true, 10, 10, 0, 0, false)) ∧
    ((false = true →
        repayTool envActiveDebt cfgAllKeys =
          (.ok (.failure "Borrower is banned; repay unavailable until unbanned."),
            [Event.contractRead "loanStatus"])) ∧
      (false = false → (true = false ∨ (10 : ℤ) = 0) →
        repayTool envActiveDebt cfgAllKeys =
          (.ok (.failure "No active loan to repay."), [Event.contractRead "loanStatus"])) ∧
      (false = false → true = true → (10 : ℤ) ≠ 0 →
        (∀ f args v, Event.txBuild f args v ∈ (repayTool envActiveDebt cfgAllKeys).2 →
          f = "repay" ∧ args = [Arg.num 10] ∧ v = 10) ∧
        (∀ f args v, Event.metamaskReq f args v ∈ (repayTool envActiveDebt cfgAllKeys).2 →
          f = "repay" ∧ args = [Arg.num 10] ∧ v = 10))) :=
  ⟨⟨by decide, by decide, by decide, by decide, by decide⟩,
    c10_repay_full_outstanding envActiveDebt cfgAllKeys "0xDerived" "0xDerived"
      true 10 10 0 0 false (by decide) (by decide) (by decide) (by decide) (by decide)⟩

end ArcLend
